import Mathlib

/-!
# FocusBubble: the background timer engine

A shallow embedding of `src/extension-multi-browser/chrome/background.js`
(the multi-browser engine).  The module-level `timerState`, the extension
storage area, the two alarms and the pushed notifications and broadcasts are
gathered in one explicit `World` that every handler transforms.  The
service-worker engine (`src/extension/background/service-worker.js`) and
`Timer.calculateStreak` (`src/extension-multi-browser/shared/timer.js`) are
embedded in the namespaces `ServiceWorker` and `Timer`.

Modelling conventions

* Times and durations are integers (milliseconds); JavaScript numbers are
  doubles, so the model is exact for integer values below `2 ^ 53`.
  Fractional and non-finite numbers (`NaN`, `Infinity`) are not represented.
* `Date.now()` is read once per handler invocation and passed in as `now`.
* `null` in arithmetic is `0` (`ToNumber(null)`), written `numOrZero`.
* Storage reads and writes succeed; the `catch` branches that only log are
  not reachable in the model.
* The event log (`logEvent`) and the console are debugging output and are
  left out.
-/

namespace FocusBubble

/-! ## Data model -/

/-- A JavaScript value as it can arrive in a message field. -/
inductive JSVal where
  | undefined
  | null
  | bool (b : Bool)
  | num (n : Int)
  | str (s : String)
deriving DecidableEq, Repr

/-- The module-level `timerState` object (background.js, lines 43-53). -/
structure TimerState where
  isActive : Bool
  isPaused : Bool
  startTime : Option Int
  pauseTime : Option Int
  duration : Int
  remainingTime : Option Int
  distractions : Int
  sessionId : Option String
  mode : String
deriving DecidableEq, Repr

/-- The object returned by `getTimerState()`: the fields of `timerState` with
`remainingTime` recomputed, plus `progress`. -/
structure TimerSnapshot where
  state : TimerState
  progress : ℚ
deriving DecidableEq, Repr

/-- A history record, as built in `saveSessionToHistory`.  `date` holds the
timestamp handed to `new Date(..).toDateString()`; the rendering itself is
locale dependent and left uninterpreted. -/
structure Session where
  id : Option String
  mode : String
  startTime : Option Int
  endTime : Int
  plannedDuration : Int
  actualDuration : Int
  distractions : Int
  completed : Bool
  date : Int
deriving DecidableEq, Repr

/-- The stored `stats` object.  A key that is absent (or `null`) is `none`. -/
structure Stats where
  totalSessions : Option Int
  completedSessions : Option Int
  totalFocusTime : Option Int
  totalDistractions : Option Int
  currentStreak : Option Int
  longestStreak : Option Int
  lastSessionDate : Option Int
deriving DecidableEq, Repr

/-- The stored `settings` object (keys as written on install). -/
structure Settings where
  defaultFocusDuration : Option Int
  shortBreakDuration : Option Int
  longBreakDuration : Option Int
  sessionsUntilLongBreak : Option Int
  notificationsEnabled : Option Bool
  soundEnabled : Option Bool
  autoStartBreaks : Option Bool
  autoStartPomodoros : Option Bool
  darkMode : Option Bool
  aiInsightsEnabled : Option Bool
deriving DecidableEq, Repr

/-- The extension storage area, restricted to the keys the engine uses.
An absent `sessions` key reads as `[]` and an absent `stats` key as `{}`
(the destructuring defaults), so they are stored as such. -/
structure Storage where
  timerState : Option TimerSnapshot
  sessions : List Session
  stats : Stats
  settings : Option Settings
deriving DecidableEq, Repr

/-- A one-shot alarm created with `delayInMinutes`; the delay is kept in
milliseconds (`delayInMinutes * 60000`). -/
structure Alarm where
  createdAt : Int
  delayMs : Int
deriving DecidableEq, Repr

/-- Everything the background script reads or writes. -/
structure World where
  timerState : TimerState
  storage : Storage
  focusTimer : Option Alarm
  timerTick : Bool
  notifications : List String
  broadcasts : List String
deriving DecidableEq, Repr

/-- A handler response `{success, error?, state?, distractions?}`. -/
structure Response where
  success : Bool
  error : Option String
  state : Option TimerSnapshot
  distractions : Option Int
deriving DecidableEq, Repr

/-! ## Constants and small helpers -/

/-- The value `timerState` is reset to (lines 43-53 and 378-388). -/
def defaultTimerState : TimerState :=
  { isActive := false, isPaused := false, startTime := none, pauseTime := none,
    duration := 25 * 60 * 1000, remainingTime := none, distractions := 0,
    sessionId := none, mode := "focus" }

/-- The `stats` object written on install and by `handleClearAllData`. -/
def zeroStats : Stats :=
  { totalSessions := some 0, completedSessions := some 0, totalFocusTime := some 0,
    totalDistractions := some 0, currentStreak := some 0, longestStreak := some 0,
    lastSessionDate := none }

/-- The empty object `{}` used when no `stats` are stored. -/
def emptyStats : Stats :=
  { totalSessions := none, completedSessions := none, totalFocusTime := none,
    totalDistractions := none, currentStreak := none, longestStreak := none,
    lastSessionDate := none }

/-- The `settings` object written on install (lines 79-90). -/
def defaultSettings : Settings :=
  { defaultFocusDuration := some 25, shortBreakDuration := some 5,
    longBreakDuration := some 15, sessionsUntilLongBreak := some 4,
    notificationsEnabled := some true, soundEnabled := some true,
    autoStartBreaks := some false, autoStartPomodoros := some false,
    darkMode := some false, aiInsightsEnabled := some false }

/-- Storage right after installation. -/
def installedStorage : Storage :=
  { timerState := none, sessions := [], stats := zeroStats, settings := some defaultSettings }

/-- The world of a freshly loaded background script over a given storage. -/
def freshWorld (st : Storage) : World :=
  { timerState := defaultTimerState, storage := st, focusTimer := none,
    timerTick := false, notifications := [], broadcasts := [] }

/-- The numeric value of a nullable number: `null` counts as `0`. -/
def numOrZero (x : Option Int) : Int := x.getD 0

/-- JavaScript truthiness of a nullable number (`null` and `0` are falsy). -/
def truthyNum (x : Option Int) : Bool :=
  match x with
  | none => false
  | some v => v != 0

/-- JavaScript truthiness of a nullable string (`null` and `""` are falsy). -/
def truthyStr (x : Option String) : Bool :=
  match x with
  | none => false
  | some s => s != ""

/-- The response `{ success: false, error }`. -/
def failure (msg : String) : Response :=
  { success := false, error := some msg, state := none, distractions := none }

/-- The response `{ success: true, state }`. -/
def successWith (snap : TimerSnapshot) : Response :=
  { success := true, error := none, state := some snap, distractions := none }

/-- The function `generateSessionId` (lines 851-853); `rand` is the random suffix. -/
def generateSessionId (now : Int) (rand : String) : String :=
  "session_" ++ toString now ++ "_" ++ rand

/-! ## Utility functions -/

/-- The function `calculateRemainingTime` (lines 817-828). -/
def calculateRemainingTime (now : Int) (ts : TimerState) : Int :=
  if !truthyNum ts.startTime then ts.duration
  else if ts.isPaused && ts.remainingTime.isSome then numOrZero ts.remainingTime
  else max 0 (ts.duration - (now - numOrZero ts.startTime))

/-- The function `getTimerState` (lines 836-844). -/
def getTimerState (now : Int) (ts : TimerState) : TimerSnapshot :=
  { state := { ts with remainingTime := some (calculateRemainingTime now ts) },
    progress :=
      if ts.duration > 0 then
        (((ts.duration - calculateRemainingTime now ts : Int) : ℚ) / (ts.duration : ℚ)) * 100
      else 0 }

/-- The function `broadcastToTabs` (lines 861-874), recorded by message type. -/
def broadcastToTabs (msgType : String) (w : World) : World :=
  { w with broadcasts := w.broadcasts ++ [msgType] }

/-! ## Storage functions -/

/-- The function `saveTimerState` (lines 571-578). -/
def saveTimerState (now : Int) (w : World) : World :=
  { w with storage := { w.storage with timerState := some (getTimerState now w.timerState) } }

/-- The duration computed at lines 593-595 of `saveSessionToHistory`. -/
def actualDurationOf (now : Int) (sessionData : TimerState) : Int :=
  if sessionData.isPaused then numOrZero sessionData.pauseTime - numOrZero sessionData.startTime
  else now - numOrZero sessionData.startTime

/-- The session record built at lines 598-608 of `saveSessionToHistory`. -/
def sessionRecord (now : Int) (sessionData : TimerState) (completed : Bool) : Session :=
  { id := sessionData.sessionId
    mode := sessionData.mode
    startTime := sessionData.startTime
    endTime := now
    plannedDuration := sessionData.duration
    actualDuration := actualDurationOf now sessionData
    distractions := sessionData.distractions
    completed := completed
    date := numOrZero sessionData.startTime }

/-- The list update at lines 611-614: `push`, then one `shift` when longer than 100. -/
def pushCapped (sessions : List Session) (session : Session) : List Session :=
  if (sessions ++ [session]).length > 100 then (sessions ++ [session]).tail
  else sessions ++ [session]

/-- The statistics update at lines 617-632 of `saveSessionToHistory`. -/
def updateStats (now : Int) (stats : Stats) (sessionData : TimerState) (completed : Bool) :
    Stats :=
  let streak := completed && sessionData.mode == "focus"
  { totalSessions := some (numOrZero stats.totalSessions + 1)
    completedSessions := some (numOrZero stats.completedSessions + (if completed then 1 else 0))
    totalFocusTime := some (numOrZero stats.totalFocusTime +
      (if sessionData.mode == "focus" then actualDurationOf now sessionData else 0))
    totalDistractions := some (numOrZero stats.totalDistractions + sessionData.distractions)
    lastSessionDate := some (numOrZero sessionData.startTime)
    currentStreak := if streak then some (numOrZero stats.currentStreak + 1) else none
    longestStreak :=
      if streak then some (max (numOrZero stats.currentStreak + 1) (numOrZero stats.longestStreak))
      else none }

/-- The function `saveSessionToHistory` (lines 587-648). -/
def saveSessionToHistory (now : Int) (sessionData : TimerState) (completed : Bool)
    (w : World) : World :=
  { w with storage :=
      { w.storage with
        sessions := pushCapped w.storage.sessions (sessionRecord now sessionData completed)
        stats := updateStats now w.storage.stats sessionData completed } }

/-- The function `handleGetSessions` (lines 671-680): `slice(-limit).reverse()`.
A negative argument of `slice` counts from the end; `slice(-0)` is the whole list. -/
def handleGetSessions (limit : Int) (w : World) : List Session :=
  (if limit > 0 then w.storage.sessions.drop (w.storage.sessions.length - limit.toNat)
   else w.storage.sessions.drop (-limit).toNat).reverse

/-- The function `handleClearAllData` (lines 743-765). -/
def handleClearAllData (w : World) : Response × World :=
  ({ success := true, error := none, state := none, distractions := none },
   { w with storage := { w.storage with sessions := [], stats := zeroStats } })

/-! ## Timer control -/

/-- The function `handleStopTimer` (lines 368-421); `saveSession` is the
argument after its default (`true`) has been applied. -/
def handleStopTimer (now : Int) (saveSession : Bool) (w : World) : Response × World :=
  if !w.timerState.isActive && !w.timerState.isPaused then
    (failure "No active timer to stop", w)
  else
    let sessionData := w.timerState
    let w1 : World := { w with timerState := defaultTimerState }
    let w2 : World := { w1 with focusTimer := none, timerTick := false }
    let w3 := saveTimerState now w2
    let w4 := if saveSession && truthyStr sessionData.sessionId then
        saveSessionToHistory now sessionData false w3
      else w3
    let w5 := broadcastToTabs "TIMER_STOPPED" w4
    (successWith (getTimerState now w5.timerState), w5)

/-- The function `handleStartTimer` (lines 201-259).  `duration` and `mode` are
the raw message fields (`undefined` and `none` select the defaults `25` and
`'focus'`); `rand` is the random suffix drawn by `generateSessionId`. -/
def handleStartTimer (now : Int) (rand : String) (duration : JSVal) (mode : Option String)
    (w : World) : Response × World :=
  let duration := if duration = JSVal.undefined then JSVal.num 25 else duration
  match duration with
  | JSVal.num d =>
    if d ≤ 0 then (failure "Invalid duration", w)
    else
      let w1 := if w.timerState.isActive || w.timerState.isPaused then
          (handleStopTimer now false w).2
        else w
      let w2 : World := { w1 with timerState :=
        { isActive := true, isPaused := false, startTime := some now, pauseTime := none,
          duration := d * 60 * 1000, remainingTime := some (d * 60 * 1000),
          distractions := 0, sessionId := some (generateSessionId now rand),
          mode := mode.getD "focus" } }
      let w3 : World := { w2 with
        focusTimer := some { createdAt := now, delayMs := d * 60000 }, timerTick := true }
      let w4 := saveTimerState now w3
      let w5 := broadcastToTabs "TIMER_STARTED" w4
      (successWith (getTimerState now w5.timerState), w5)
  | _ => (failure "Invalid duration", w)

/-- The function `handlePauseTimer` (lines 267-308). -/
def handlePauseTimer (now : Int) (w : World) : Response × World :=
  if !w.timerState.isActive then (failure "No active timer to pause", w)
  else if w.timerState.isPaused then (failure "Timer already paused", w)
  else
    let ts1 : TimerState := { w.timerState with isPaused := true, pauseTime := some now }
    let ts2 : TimerState := { ts1 with remainingTime := some (calculateRemainingTime now ts1) }
    let w1 : World := { w with
      timerState := ts2
      focusTimer := none
      timerTick := false }
    let w2 := saveTimerState now w1
    let w3 := broadcastToTabs "TIMER_PAUSED" w2
    (successWith (getTimerState now w3.timerState), w3)

/-- The function `handleResumeTimer` (lines 316-359). -/
def handleResumeTimer (now : Int) (w : World) : Response × World :=
  if !w.timerState.isActive || !w.timerState.isPaused then
    (failure "No paused timer to resume", w)
  else
    let ts1 : TimerState :=
      { w.timerState with isPaused := false, startTime := some now, pauseTime := none }
    let w1 : World := { w with
      timerState := ts1
      focusTimer := some { createdAt := now, delayMs := numOrZero ts1.remainingTime }
      timerTick := true }
    let w2 := saveTimerState now w1
    let w3 := broadcastToTabs "TIMER_RESUMED" w2
    (successWith (getTimerState now w3.timerState), w3)

/-- The function `handleResetTimer` (lines 428-441). -/
def handleResetTimer (now : Int) (w : World) : Response × World :=
  let w1 := (handleStopTimer now false w).2
  (successWith (getTimerState now w1.timerState), w1)

/-! ## Alarm handling -/

/-- The notification title chosen at lines 492-507 (`messages[mode] || messages.focus`). -/
def completionTitle (mode : String) : String :=
  if mode == "short-break" then "Break Complete! ☕"
  else if mode == "long-break" then "Long Break Complete! 🌟"
  else "Focus Session Complete! 🎉"

/-- The test `settings.notificationsEnabled !== false` over `const { settings = {} }`. -/
def notificationsOn (st : Storage) : Bool :=
  match st.settings with
  | none => true
  | some s => s.notificationsEnabled != some false

/-- The function `handleTimerComplete` (lines 473-534). -/
def handleTimerComplete (now : Int) (w : World) : World :=
  let sessionData := w.timerState
  let w1 : World := { w with
    timerState := { w.timerState with isActive := false, remainingTime := some 0 } }
  let w2 : World := { w1 with timerTick := false }
  let w3 := saveSessionToHistory now sessionData true w2
  let w4 : World := if notificationsOn w3.storage then
      { w3 with notifications := w3.notifications ++ [completionTitle sessionData.mode] }
    else w3
  broadcastToTabs "TIMER_COMPLETED" w4

/-- The function `handleTimerTick` (lines 540-561). -/
def handleTimerTick (now : Int) (w : World) : World :=
  if !w.timerState.isActive || w.timerState.isPaused then
    { w with timerTick := false }
  else
    let w1 : World := { w with timerState :=
      { w.timerState with remainingTime := some (calculateRemainingTime now w.timerState) } }
    if numOrZero w1.timerState.remainingTime ≤ 0 then handleTimerComplete now w1
    else broadcastToTabs "TIMER_TICK" w1

/-- The `onAlarm` listener (lines 451-467).  A one-shot alarm is gone once it
has fired, so delivering `focusTimer` removes it from the pending alarms. -/
def onAlarm (now : Int) (name : String) (w : World) : World :=
  if name == "focusTimer" then handleTimerComplete now { w with focusTimer := none }
  else if name == "timerTick" then handleTimerTick now w
  else w

/-! ## Distraction handling -/

/-- The function `handleDistraction` (lines 778-805). -/
def handleDistraction (w : World) : Response × World :=
  if !w.timerState.isActive || w.timerState.isPaused then (failure "No active timer", w)
  else
    let w1 : World := { w with timerState :=
      { w.timerState with distractions := w.timerState.distractions + 1 } }
    let w2 := broadcastToTabs "DISTRACTION_COUNT_UPDATED" w1
    ({ success := true, error := none, state := none,
       distractions := some w2.timerState.distractions }, w2)

/-! ## Restore on startup -/

/-- The function `restoreState` (lines 921-951).  The stored snapshot also
carries `progress`; spreading it into `timerState` adds a key that every later
`getTimerState` overwrites, so it is dropped here. -/
def restoreState (now : Int) (w : World) : World :=
  match w.storage.timerState with
  | none => w
  | some snap =>
    let saved := snap.state
    if saved.isActive then
      let elapsed := now - numOrZero saved.startTime
      if elapsed ≥ saved.duration then handleTimerComplete now w
      else if !saved.isPaused then
        let ts : TimerState := { saved with remainingTime := some (saved.duration - elapsed) }
        { w with
          timerState := ts
          focusTimer := some { createdAt := now, delayMs := numOrZero ts.remainingTime }
          timerTick := true }
      else w
    else w

/-- A cold start: a freshly loaded script runs `restoreState()` (line 954). -/
def coldStart (now : Int) (st : Storage) : World :=
  restoreState now (freshWorld st)

/-! ## Reference scenarios

Concrete runs of the engine, built only from the handlers above. -/

/-- A freshly installed extension with an idle timer. -/
def installedWorld : World := freshWorld installedStorage

/-- The engine after `START_TIMER` with `duration: 1` at time `1000`. -/
def started1 : World :=
  (handleStartTimer 1000 "abc" (JSVal.num 1) none installedWorld).2

/-- The engine after `START_TIMER` with `duration: 25` at time `1000`. -/
def started25 : World :=
  (handleStartTimer 1000 "abc" (JSVal.num 25) none installedWorld).2

/-- As `started1`, then `PAUSE_TIMER` one second later. -/
def paused1 : World := (handlePauseTimer 2000 started1).2

/-- As `started25`, then `PAUSE_TIMER` after 300 s with no tick delivered. -/
def paused25NoTick : World := (handlePauseTimer 301000 started25).2

/-- As `started25`, then a tick and `PAUSE_TIMER`, both after 300 s. -/
def paused25 : World :=
  (handlePauseTimer 301000 (onAlarm 301000 "timerTick" started25)).2

/-- As `paused25`, then `RESUME_TIMER` after a further 9999 s. -/
def resumed25 : World := (handleResumeTimer 10300000 paused25).2

/-- The engine after `START_TIMER` with `duration: 10`, `mode: 'short-break'` at time `1000`. -/
def startedBreak10 : World :=
  (handleStartTimer 1000 "abc" (JSVal.num 10) (some "short-break") installedWorld).2

/-- A running 25-minute focus timer as `saveTimerState` stores it at time `1000`. -/
def runningSnapshot : TimerSnapshot :=
  { state :=
      { isActive := true, isPaused := false, startTime := some 1000, pauseTime := none,
        duration := 1500000, remainingTime := some 1500000, distractions := 0,
        sessionId := some "session_1000_abc", mode := "focus" }
    progress := 0 }

/-- A freshly loaded script over storage holding `runningSnapshot`. -/
def reloadedRunning : World :=
  freshWorld { installedStorage with timerState := some runningSnapshot }

/-- The storage left by `start(25)` at `1000` and `pause()` at `101000`. -/
def pausedStorage : Storage := (handlePauseTimer 101000 started25).2.storage

/-! ## Event traces

The background script is driven by messages, alarms and (re)loads of the
script itself.  A trace lists them with the clock reading at delivery. -/

/-- One delivery to the background script: a message of the router
(lines 127-188), an alarm (lines 451-467) or a reload of the script. -/
inductive Event where
  | start (rand : String) (duration : JSVal) (mode : Option String)
  | pause
  | resume
  | stop (saveSession : Bool)
  | reset
  | distraction
  | alarm (name : String)
  | restart
deriving DecidableEq, Repr

/-- The effect of one delivery on the world.  A reload puts the module-level
`timerState` back to its initial value and runs `restoreState()`; storage and
pending alarms belong to the browser and survive. -/
def deliver (now : Int) (e : Event) (w : World) : World :=
  match e with
  | Event.start rand duration mode => (handleStartTimer now rand duration mode w).2
  | Event.pause => (handlePauseTimer now w).2
  | Event.resume => (handleResumeTimer now w).2
  | Event.stop saveSession => (handleStopTimer now saveSession w).2
  | Event.reset => (handleResetTimer now w).2
  | Event.distraction => (handleDistraction w).2
  | Event.alarm name => onAlarm now name w
  | Event.restart => restoreState now { w with timerState := defaultTimerState }

/-- Deliver a trace of timed events, oldest first. -/
def run (w : World) : List (Int × Event) → World
  | [] => w
  | (now, e) :: rest => run (deliver now e w) rest

/-- The engine states that some trace reaches from a fresh installation. -/
def Reachable (w : World) : Prop :=
  ∃ trace : List (Int × Event), run installedWorld trace = w

/-- What every handler maintains: durations are positive, an active timer has
a positive stored remaining time, and an inactive one has none left. -/
def EngineInv (w : World) : Prop :=
  0 < w.timerState.duration ∧
  (w.timerState.isActive = true → 0 < numOrZero w.timerState.remainingTime) ∧
  (w.timerState.isActive = false → numOrZero w.timerState.remainingTime = 0) ∧
  (∀ snap : TimerSnapshot, w.storage.timerState = some snap → 0 < snap.state.duration)

/-- The trace behind `paused25`. -/
def paused25Trace : List (Int × Event) :=
  [(1000, Event.start "abc" (JSVal.num 25) none),
   (301000, Event.alarm "timerTick"),
   (301000, Event.pause)]

/-- Two one-minute focus sessions started within two minutes of each other,
each run to its completion alarm. -/
def twoFocusSessions : World :=
  run installedWorld
    [(1000, Event.start "abc" (JSVal.num 1) none),
     (61000, Event.alarm "focusTimer"),
     (100000, Event.start "def" (JSVal.num 1) none),
     (160000, Event.alarm "focusTimer")]

/-- Tick alarms delivered at the given clock readings. -/
def tickTrace (ticks : List Int) : List (Int × Event) :=
  ticks.map (fun t => (t, Event.alarm "timerTick"))

/-- A one-minute focus session run to its completion alarm. -/
def completed1 : World := onAlarm 61000 "focusTimer" started1

/-! ## History appends -/

/-- A sequence of `saveSessionToHistory(sessionData, completed)` calls, each
with the clock reading at the call. -/
def appendSessions (w : World) : List (Int × TimerState × Bool) → World
  | [] => w
  | (now, sessionData, completed) :: rest =>
    appendSessions (saveSessionToHistory now sessionData completed w) rest

/-- The records those calls build, oldest first. -/
def appendedRecords (calls : List (Int × TimerState × Bool)) : List Session :=
  calls.map (fun c => sessionRecord c.1 c.2.1 c.2.2)

/-- A completed one-minute focus session followed by a completed five-minute
short break. -/
def breakAfterFocus : World :=
  run installedWorld
    [(1000, Event.start "abc" (JSVal.num 1) none),
     (61000, Event.alarm "focusTimer"),
     (100000, Event.start "def" (JSVal.num 5) (some "short-break")),
     (400000, Event.alarm "focusTimer")]

/-- A completed one-minute focus session followed by a focus session stopped
early and saved. -/
def stoppedAfterFocus : World :=
  run installedWorld
    [(1000, Event.start "abc" (JSVal.num 1) none),
     (61000, Event.alarm "focusTimer"),
     (100000, Event.start "def" (JSVal.num 25) none),
     (400000, Event.stop true)]

/-- A session record used to fill a history list. -/
def sampleSession (n : Int) : Session :=
  { id := some "s", mode := "focus", startTime := some n, endTime := n + 60000,
    plannedDuration := 60000, actualDuration := 60000, distractions := 0,
    completed := true, date := n }

/-- A world whose stored history holds exactly 100 records. -/
def fullHistory : World :=
  { installedWorld with
    storage := { installedStorage with
      sessions := (List.range 100).map (fun i => sampleSession i) } }

/-! ## Clock discipline -/

/-- Whether the clock readings of a trace never go back, starting from
reading `t0`. -/
def nonDecreasing (t0 : Int) : List (Int × Event) → Bool
  | [] => true
  | (t, _) :: rest => decide (t0 ≤ t) && nonDecreasing t rest

/-- The clock reading after a trace that started at reading `t0`. -/
def lastReading (t0 : Int) : List (Int × Event) → Int
  | [] => t0
  | (t, _) :: rest => lastReading t rest

/-- What the handlers maintain about time when the clock has reached `T`: a
recorded start is not in the future, a stored remaining time lies between 0
and the duration, and an active timer has a recorded start; the persisted
snapshot obeys the first and the last. -/
def ClockInv (T : Int) (w : World) : Prop :=
  (∀ s : Int, w.timerState.startTime = some s → s ≤ T) ∧
  (∀ r : Int, w.timerState.remainingTime = some r → 0 ≤ r ∧ r ≤ w.timerState.duration) ∧
  (w.timerState.isActive = true → w.timerState.startTime.isSome = true) ∧
  (∀ snap : TimerSnapshot, w.storage.timerState = some snap →
    (∀ s : Int, snap.state.startTime = some s → s ≤ T) ∧
    (snap.state.isActive = true → snap.state.startTime.isSome = true))

/-- A run with a pause, a resume, ticks and a restart, on a non-decreasing clock. -/
def mixedTrace : List (Int × Event) :=
  [(1000, Event.start "abc" (JSVal.num 25) none),
   (61000, Event.alarm "timerTick"),
   (61000, Event.distraction),
   (301000, Event.pause),
   (900000, Event.resume),
   (901000, Event.alarm "timerTick"),
   (950000, Event.restart)]

/-! ## The service-worker engine

A shallow embedding of `src/extension/background/service-worker.js`.  Its
`timeRemaining` and `duration` are in seconds, its timestamps in
milliseconds; `Math.floor(x / 1000)` is integer division. -/

namespace ServiceWorker

/-- The module-level `timerState` object (service-worker.js, lines 26-35). -/
structure TimerState where
  isRunning : Bool
  timeRemaining : Int
  duration : Int
  startTime : Option Int
  pausedAt : Option Int
  sessionId : Option String
  distractionCount : Int
  currentSessionStart : Option Int
deriving DecidableEq, Repr

/-- A record pushed by `saveSession` (lines 296-304); the two `Date` values are
kept as their millisecond readings. -/
structure Session where
  id : String
  startTime : Int
  endTime : Int
  duration : Int
  distractions : Int
  completed : Bool
deriving DecidableEq, Repr

/-- The module-level `settings` object (lines 45-51). -/
structure Settings where
  defaultDuration : Int
  notificationsEnabled : Bool
  soundEnabled : Bool
  autoStartBreak : Bool
  floatingBubbleEnabled : Bool
deriving DecidableEq, Repr

/-- The three storage keys written by `saveState`. -/
structure Stored where
  timerState : Option TimerState
  sessions : Option (List Session)
  settings : Option Settings
deriving DecidableEq, Repr

/-- Everything the service worker reads or writes: its three module-level
variables, storage, the `focusBubbleTimer` alarm, whether the one-second
interval is installed, and what it has pushed out. -/
structure World where
  timerState : TimerState
  sessions : List Session
  settings : Settings
  storage : Stored
  alarm : Option Alarm
  updates : Bool
  notifications : List String
  broadcasts : List TimerState
deriving DecidableEq, Repr

/-- The response `{ state: timerState, sessions, settings }` of `GET_STATE`. -/
structure StateResponse where
  state : TimerState
  sessions : List Session
  settings : Settings
deriving DecidableEq, Repr

/-- The initial `timerState` (lines 26-35). -/
def initialTimerState : TimerState :=
  { isRunning := false, timeRemaining := 0, duration := 25 * 60, startTime := none,
    pausedAt := none, sessionId := none, distractionCount := 0, currentSessionStart := none }

/-- The initial `settings` (lines 45-51). -/
def initialSettings : Settings :=
  { defaultDuration := 25, notificationsEnabled := true, soundEnabled := false,
    autoStartBreak := false, floatingBubbleEnabled := true }

/-- A freshly loaded service worker over the given storage and pending alarm. -/
def freshWorld (st : Stored) (alarm : Option Alarm) : World :=
  { timerState := initialTimerState, sessions := [], settings := initialSettings,
    storage := st, alarm := alarm, updates := false, notifications := [], broadcasts := [] }

/-- A freshly loaded service worker over empty storage. -/
def initialWorld : World :=
  freshWorld { timerState := none, sessions := none, settings := none } none

/-- The function `saveState` (lines 124-134). -/
def saveState (w : World) : World :=
  { w with storage :=
      { timerState := some w.timerState
        sessions := some (w.sessions.drop (w.sessions.length - 1000))
        settings := some w.settings } }

/-- The function `loadState` (lines 99-119).  The stored objects carry every
key, so the spreads `{ ...timerState, ...data.timerState }` yield the stored
value. -/
def loadState (w : World) : World :=
  { w with
    timerState := w.storage.timerState.getD w.timerState
    sessions := w.storage.sessions.getD w.sessions
    settings := w.storage.settings.getD w.settings }

/-- The function `broadcastState` (lines 334-353): pushes a copy of `timerState`. -/
def broadcastState (w : World) : World :=
  { w with broadcasts := w.broadcasts ++ [w.timerState] }

/-- The function `startTimerAlarm` (lines 246-254); `timeRemaining / 60` minutes
is `timeRemaining * 1000` ms. -/
def startTimerAlarm (now : Int) (w : World) : World :=
  { w with alarm := some { createdAt := now, delayMs := w.timerState.timeRemaining * 1000 } }

/-- The function `startTimerUpdates` (lines 489-510): installs the interval. -/
def startTimerUpdates (w : World) : World := { w with updates := true }

/-- The function `stopTimerUpdates` (lines 512-517). -/
def stopTimerUpdates (w : World) : World := { w with updates := false }

/-- The function `saveSession` (lines 296-304); `rand` feeds `generateSessionId`.
The caller's object has no `id` key, so the `id` of the argument is a
placeholder that is always overwritten. -/
def saveSession (now : Int) (rand : String) (session : Session) (w : World) : World :=
  let id := if truthyStr w.timerState.sessionId then w.timerState.sessionId.getD ""
    else generateSessionId now rand
  saveState { w with sessions := w.sessions ++ [{ session with id := id }] }

/-- The function `handleTimerComplete` (lines 259-287). -/
def handleTimerComplete (now : Int) (rand : String) (w : World) : World :=
  let w1 : World := { w with
    timerState := { w.timerState with isRunning := false, timeRemaining := 0 } }
  let w2 := saveSession now rand
    { id := "", startTime := numOrZero w1.timerState.currentSessionStart, endTime := now,
      duration := w1.timerState.duration, distractions := w1.timerState.distractionCount,
      completed := true } w1
  let w3 : World := if w2.settings.notificationsEnabled then
      { w2 with notifications := w2.notifications ++ ["Focus Session Complete! 🎉"] }
    else w2
  broadcastState (saveState w3)

/-- The elapsed whole seconds `Math.floor((Date.now() - timerState.startTime) / 1000)`. -/
def elapsedSeconds (now : Int) (ts : TimerState) : Int :=
  (now - numOrZero ts.startTime) / 1000

/-- The function `resumeTimerAfterRestart` (lines 139-151). -/
def resumeTimerAfterRestart (now : Int) (rand : String) (w : World) : World :=
  let w1 : World := { w with timerState :=
    { w.timerState with
      timeRemaining := max 0 (w.timerState.timeRemaining - elapsedSeconds now w.timerState) } }
  if w1.timerState.timeRemaining > 0 then broadcastState (startTimerAlarm now w1)
  else handleTimerComplete now rand w1

/-- The function `initializeBackground` (lines 60-72). -/
def initializeBackground (now : Int) (rand : String) (w : World) : World :=
  let w1 := loadState w
  if w1.timerState.isRunning && truthyNum w1.timerState.startTime then
    resumeTimerAfterRestart now rand w1
  else w1

/-- A cold start: the module-level variables are back at their initial values,
storage and the pending alarm survive, and `initializeBackground()` runs. -/
def coldStart (now : Int) (rand : String) (w : World) : World :=
  initializeBackground now rand (freshWorld w.storage w.alarm)

/-- The function `startTimer` (lines 160-180); `duration` is in minutes. -/
def startTimer (now : Int) (rand : String) (duration : Int) (w : World) : World :=
  let w1 : World := { w with timerState :=
    { isRunning := true, timeRemaining := duration * 60, duration := duration * 60,
      startTime := some now, pausedAt := none, sessionId := some (generateSessionId now rand),
      distractionCount := 0, currentSessionStart := some now } }
  broadcastState (startTimerUpdates (startTimerAlarm now (saveState w1)))

/-- The function `pauseTimer` (lines 185-201). -/
def pauseTimer (now : Int) (w : World) : World :=
  if !w.timerState.isRunning then w
  else
    let w1 : World := { w with timerState :=
      { w.timerState with
        timeRemaining := max 0 (w.timerState.timeRemaining - elapsedSeconds now w.timerState)
        isRunning := false
        pausedAt := some now
        startTime := none } }
    let w2 : World := { w1 with alarm := none }
    broadcastState (saveState (stopTimerUpdates w2))

/-- The function `resumeTimer` (lines 206-219). -/
def resumeTimer (now : Int) (w : World) : World :=
  if w.timerState.isRunning || decide (w.timerState.timeRemaining ≤ 0) then w
  else
    let w1 : World := { w with timerState :=
      { w.timerState with isRunning := true, startTime := some now, pausedAt := none } }
    broadcastState (startTimerUpdates (startTimerAlarm now (saveState w1)))

/-- The function `resetTimer` (lines 224-241). -/
def resetTimer (w : World) : World :=
  let w1 : World := { w with timerState :=
    { isRunning := false, timeRemaining := w.timerState.duration,
      duration := w.timerState.duration, startTime := none, pausedAt := none,
      sessionId := none, distractionCount := 0, currentSessionStart := none } }
  let w2 : World := { w1 with alarm := none }
  broadcastState (saveState w2)

/-- The function `recordDistraction` (lines 316-325). -/
def recordDistraction (w : World) : World :=
  if !w.timerState.isRunning then w
  else
    let w1 : World := { w with timerState :=
      { w.timerState with distractionCount := w.timerState.distractionCount + 1 } }
    broadcastState (saveState w1)

/-- The `GET_STATE` branch of the message listener (lines 385-387). -/
def getState (w : World) : StateResponse :=
  { state := w.timerState, sessions := w.sessions, settings := w.settings }

/-- The seconds shown by the popup for a state it received
(`updateTimerDisplay`, src/extension/popup/popup.js, lines 240-245). -/
def popupSeconds (now : Int) (state : TimerState) : Int :=
  if state.isRunning && truthyNum state.startTime then
    max 0 (state.timeRemaining - (now - numOrZero state.startTime) / 1000)
  else state.timeRemaining

/-- One call of an engine operation. -/
inductive Event where
  | start (rand : String) (duration : Int)
  | pause
  | resume
  | reset
  | distraction
  | complete (rand : String)
deriving DecidableEq, Repr

/-- The effect of one operation. -/
def deliver (now : Int) (e : Event) (w : World) : World :=
  match e with
  | Event.start rand duration => startTimer now rand duration w
  | Event.pause => pauseTimer now w
  | Event.resume => resumeTimer now w
  | Event.reset => resetTimer w
  | Event.distraction => recordDistraction w
  | Event.complete rand => handleTimerComplete now rand w

/-- Perform a trace of timed operations, oldest first. -/
def run (w : World) : List (Int × Event) → World
  | [] => w
  | (now, e) :: rest => run (deliver now e w) rest

/-- A 25-minute timer started at reading `1000`. -/
def swStarted25 : World := startTimer 1000 "abc" 25 initialWorld

/-- As `swStarted25`, run to its completion alarm. -/
def swCompleted25 : World := handleTimerComplete 1501000 "xyz" swStarted25

/-- As `swStarted25`, after the service worker was reloaded 300 s later. -/
def swReloaded25 : World := coldStart 301000 "xyz" swStarted25

/-- As `swStarted25`, paused after 300 s. -/
def swPaused25 : World := pauseTimer 301000 swStarted25

/-- The operations that neither end nor restart a run in progress: a recorded
distraction, and `resumeTimer`, which returns at once while the timer runs. -/
def keepsRun (e : Event) : Bool :=
  match e with
  | Event.distraction => true
  | Event.resume => true
  | _ => false

/-- Two distractions and a stray `RESUME_TIMER` during a run. -/
def distractedTrace : List (Int × Event) :=
  [(4000, Event.distraction), (6000, Event.resume), (9000, Event.distraction)]

end ServiceWorker

/-! ## Timer utilities

A shallow embedding of `Timer.calculateStreak`
(`src/extension-multi-browser/shared/timer.js`, lines 164-196).  A calendar
day is an integer day number; `dayOf` maps a timestamp to the day number
of its local date (what `new Date(ts).toDateString()` identifies), and
`setDate(getDate() - 1)` moves to the day before. -/

namespace Timer

/-- A session as `calculateStreak` reads it: only `timestamp` is consulted. -/
structure StreakSession where
  timestamp : Int
deriving DecidableEq, Repr

/-- The `while (true)` loop of `calculateStreak` (lines 178-193), run for at
most `fuel` iterations; `none` means the fuel ran out. -/
def streakLoop (sessionDates : List Int) : Nat → Int → Nat → Option Nat
  | 0, _, _ => none
  | fuel + 1, currentDate, streak =>
    if currentDate ∈ sessionDates then
      streakLoop sessionDates fuel (currentDate - 1) (streak + 1)
    else if streak > 0 then some streak
    else if ¬ (currentDate - 1 ∈ sessionDates) then some streak
    else streakLoop sessionDates fuel (currentDate - 1) streak

/-- The dates collected at lines 170-173: the sessions sorted by descending
timestamp, mapped to their calendar day. -/
def sessionDates (dayOf : Int → Int) (sessions : List StreakSession) : List Int :=
  (sessions.insertionSort (fun a b => a.timestamp ≥ b.timestamp)).map
    (fun s => dayOf s.timestamp)

/-- The function `Timer.calculateStreak` (lines 167-196), with the loop bounded
by `fuel`; `now` is the reading of `new Date()`. -/
def calculateStreak (dayOf : Int → Int) (now : Int) (fuel : Nat)
    (sessions : List StreakSession) : Option Nat :=
  if sessions.length = 0 then some 0
  else streakLoop (sessionDates dayOf sessions) fuel (dayOf now) 0

/-- The length `n` of the maximal run of consecutive session days ending at
day `anchor`: the `n` days `anchor, anchor - 1, ...` all have a session and
the day before them has none. -/
def IsRunLength (days : List Int) (anchor : Int) (n : Nat) : Prop :=
  (∀ i : Nat, i < n → anchor - (i : Int) ∈ days) ∧ ¬ (anchor - (n : Int) ∈ days)

/-- Day numbers in UTC. -/
def utcDay (timestamp : Int) : Int := timestamp / 86400000

/-- Sessions on UTC days 10, 9, 9, 8 and 5. -/
def sampleSessions : List StreakSession :=
  [{ timestamp := 9 * 86400000 + 5 }, { timestamp := 10 * 86400000 + 7 },
   { timestamp := 5 * 86400000 }, { timestamp := 8 * 86400000 + 1 },
   { timestamp := 9 * 86400000 + 99 }]

end Timer

/-! ## Theorems -/

/-- C1 (defect): `handleTimerComplete` has no guard.  Called on an idle engine
it appends a record and changes `remainingTime`; called from the tick check and
then again from the `focusTimer` alarm of the same one-minute session it leaves
two records with the same id. -/
theorem handleTimerComplete_records_twice :
    (handleTimerComplete 5000 installedWorld).storage.sessions.length = 1 ∧
    (handleTimerComplete 5000 installedWorld).timerState ≠ installedWorld.timerState ∧
    (onAlarm 61000 "timerTick" started1).timerState.isActive = false ∧
    (onAlarm 61000 "timerTick" started1).storage.sessions.length = 1 ∧
    ((onAlarm 61000 "focusTimer" (onAlarm 61000 "timerTick" started1)).storage.sessions.map
      Session.id) = [some "session_1000_abc", some "session_1000_abc"] := by
  decide

/-- C2 (defect): after `start(1)` and `pause()`, a late `focusTimer` alarm is
not ignored: it appends a completed record, clears `isActive` and sets the
remaining time of the paused timer to 0. -/
theorem focusTimer_alarm_while_paused_completes :
    paused1.timerState.isActive = true ∧
    paused1.timerState.isPaused = true ∧
    paused1.timerState.remainingTime = some 60000 ∧
    paused1.storage.sessions.length = 0 ∧
    (onAlarm 61000 "focusTimer" paused1).storage.sessions.length = 1 ∧
    ((onAlarm 61000 "focusTimer" paused1).storage.sessions.map Session.completed) = [true] ∧
    (onAlarm 61000 "focusTimer" paused1).timerState.isActive = false ∧
    (onAlarm 61000 "focusTimer" paused1).timerState.remainingTime = some 0 := by
  decide

/-- C3 (defect): `start(25)`, 300 s without a tick, `pause()` leaves the timer
paused with the stale 1500 s remaining, not 1200 s, because `isPaused` is set
before `calculateRemainingTime` is called. -/
theorem pause_without_tick_keeps_full_duration :
    paused25NoTick.timerState.isPaused = true ∧
    paused25NoTick.timerState.remainingTime = some (1500 * 1000) ∧
    paused25NoTick.timerState.remainingTime ≠ some (max 0 (60 * 25 - 300) * 1000) := by
  decide

/-- C4 (defect): a session paused with 1200 s of its 1500 s remaining reports
1500 s right after `resume()`, and 1490 s ten seconds later: the countdown
restarts from the full duration. -/
theorem resume_restarts_from_full_duration :
    paused25.timerState.isPaused = true ∧
    paused25.timerState.remainingTime = some 1200000 ∧
    (getTimerState 10300000 paused25.timerState).state.remainingTime = some 1200000 ∧
    (getTimerState 10300000 resumed25.timerState).state.remainingTime = some 1500000 ∧
    (getTimerState 10310000 resumed25.timerState).state.remainingTime = some 1490000 := by
  decide

/-- C5 (defect): `start(25)`, 300 s, `pause()`, 9999 s, `resume()`, and the
completion alarm firing at its scheduled time 1200 s later yields a completed
record whose `actualDuration` is 1200 s, not the planned 1500 s. -/
theorem completion_after_resume_undercounts :
    resumed25.focusTimer = some { createdAt := 10300000, delayMs := 1200000 } ∧
    ((onAlarm 11500000 "focusTimer" resumed25).storage.sessions.map
      (fun s => (s.completed, s.plannedDuration, s.actualDuration))) =
      [(true, 1500000, 1200000)] := by
  decide

/-- C6 (defect): a ten-minute short break persisted as running and found 2000 s
later on a cold start yields one completed record, but built from the default
`timerState`: its id is `null`, its planned duration 25 min and its mode
`'focus'`. -/
theorem restoreState_completes_default_state :
    (startedBreak10.storage.timerState.map
      (fun p => (p.state.isActive, p.state.isPaused, p.state.startTime, p.state.duration,
        p.state.sessionId, p.state.mode))) =
      some (true, false, some 1000, 600000, some "session_1000_abc", "short-break") ∧
    ((coldStart 2001000 startedBreak10.storage).storage.sessions.map
      (fun s => (s.completed, s.id, s.plannedDuration, s.mode))) =
      [(true, none, 1500000, "focus")] ∧
    (coldStart 2001000 startedBreak10.storage).timerState.isActive = false := by
  exact ⟨rfl, rfl, rfl⟩

/-- C7: for a persisted running, unpaused timer state whose elapsed time
`now - startTime` is below `duration`, `restoreState` adopts the persisted state
(so the timer is running), sets `remainingTime` to `duration - elapsed`,
schedules the `focusTimer` alarm with that delay, restarts the tick and leaves
storage (hence the session list) untouched. -/
theorem restoreState_running_reschedules (now : Int) (w : World) (snap : TimerSnapshot)
    (hs : w.storage.timerState = some snap)
    (ha : snap.state.isActive = true) (hp : snap.state.isPaused = false)
    (he : now - numOrZero snap.state.startTime < snap.state.duration) :
    (restoreState now w).timerState =
      { snap.state with
        remainingTime := some (snap.state.duration - (now - numOrZero snap.state.startTime)) } ∧
    (restoreState now w).timerState.isActive = true ∧
    (restoreState now w).timerState.isPaused = false ∧
    (restoreState now w).focusTimer =
      some { createdAt := now,
             delayMs := snap.state.duration - (now - numOrZero snap.state.startTime) } ∧
    (restoreState now w).timerTick = true ∧
    (restoreState now w).storage = w.storage := by
  have hlt : ¬ (snap.state.duration ≤ now - snap.state.startTime.getD 0) := by
    simp only [numOrZero] at he
    omega
  simp [restoreState, hs, ha, hp, hlt, numOrZero]

/-- C7, the spec's example: persisted `startTime = now - 300 s`, `duration = 1500 s`
gives 1200 s remaining and a completion alarm 1200 s away. -/
theorem restoreState_running_reschedules_witness :
    (restoreState 301000 reloadedRunning).timerState.remainingTime = some 1200000 ∧
    (restoreState 301000 reloadedRunning).timerState.isActive = true ∧
    (restoreState 301000 reloadedRunning).focusTimer =
      some { createdAt := 301000, delayMs := 1200000 } := by
  have h := restoreState_running_reschedules 301000 reloadedRunning runningSnapshot
    rfl rfl rfl (by decide)
  refine ⟨?_, h.2.1, ?_⟩
  · rw [h.1]; rfl
  · rw [h.2.2.2.1]; rfl

/-- C8 (defect): a paused timer persisted by `pause()` is not restored.  On a
cold start before `startTime + duration` the engine stays at its idle defaults
(not paused, no session id); on a cold start after it, `restoreState` also
appends a completed record built from those defaults. -/
theorem restoreState_drops_paused_state :
    (pausedStorage.timerState.map
      (fun p => (p.state.isActive, p.state.isPaused))) = some (true, true) ∧
    (pausedStorage.timerState.map (fun p => p.state.sessionId)) =
      some (some "session_1000_abc") ∧
    (coldStart 106000 pausedStorage).timerState = defaultTimerState ∧
    (coldStart 2001000 pausedStorage).timerState.isPaused = false ∧
    (coldStart 2001000 pausedStorage).timerState.sessionId = none ∧
    pausedStorage.sessions.length = 0 ∧
    ((coldStart 2001000 pausedStorage).storage.sessions.map
      (fun s => (s.completed, s.id))) = [(true, none)] := by
  exact ⟨rfl, rfl, rfl, rfl, rfl, rfl, rfl⟩

/-- C9 (counterexample): `start(1)` at `1000` and `stop(true)` handled at
`61000`, the scheduled end, before the completion alarm: the one record
appended has `actualDuration = plannedDuration`, not strictly less. -/
theorem stop_at_scheduled_end_not_shorter :
    started1.timerState.isActive = true ∧
    ((handleStopTimer 61000 true started1).2.storage.sessions.map
      (fun s => (s.completed, s.plannedDuration, s.actualDuration))) =
      [(false, 60000, 60000)] ∧
    ¬ (∀ s ∈ (handleStopTimer 61000 true started1).2.storage.sessions,
        s.actualDuration < s.plannedDuration) := by
  decide

/-- C9 (amended): for every running or paused session carrying a session id,
`stop(false)` leaves the stored session list as it was, and `stop(true)`
appends exactly one record (subject to the 100-entry cap) with
`completed = false`, the session's id and planned duration, and an
`actualDuration` strictly less than the planned duration whenever the stop (the
pause, when the session is paused) comes earlier than `startTime + duration`. -/
theorem handleStopTimer_history (now : Int) (w : World)
    (hrun : w.timerState.isActive = true ∨ w.timerState.isPaused = true)
    (hid : truthyStr w.timerState.sessionId = true) :
    (handleStopTimer now false w).2.storage.sessions = w.storage.sessions ∧
    ∃ r : Session,
      (handleStopTimer now true w).2.storage.sessions = pushCapped w.storage.sessions r ∧
      (w.storage.sessions.length < 100 →
        (handleStopTimer now true w).2.storage.sessions = w.storage.sessions ++ [r]) ∧
      r.completed = false ∧
      r.id = w.timerState.sessionId ∧
      r.plannedDuration = w.timerState.duration ∧
      ((if w.timerState.isPaused then numOrZero w.timerState.pauseTime else now)
          < numOrZero w.timerState.startTime + w.timerState.duration →
        r.actualDuration < r.plannedDuration) := by
  have hguard : (!w.timerState.isActive && !w.timerState.isPaused) = false := by
    rcases hrun with h | h <;> simp [h]
  refine ⟨?_, sessionRecord now w.timerState false, ?_, ?_, rfl, rfl, rfl, ?_⟩
  · simp [handleStopTimer, hguard, saveTimerState, broadcastToTabs]
  · simp [handleStopTimer, hguard, hid, saveTimerState, broadcastToTabs, saveSessionToHistory]
  · intro hlen
    have hcap : ¬ (w.storage.sessions.length + 1 > 100) := by omega
    simp [handleStopTimer, hguard, hid, saveTimerState, broadcastToTabs, saveSessionToHistory,
      pushCapped, hcap]
  · intro hlt
    simp only [sessionRecord, actualDurationOf]
    split at hlt <;> simp_all <;> omega

/-- C9 (amended), at a concrete run: `start(1)` at `1000`, `stop` at `31000`. -/
theorem handleStopTimer_history_witness :
    (started1.timerState.isActive = true ∨ started1.timerState.isPaused = true) ∧
    truthyStr started1.timerState.sessionId = true ∧
    (handleStopTimer 31000 false started1).2.storage.sessions = started1.storage.sessions ∧
    ((handleStopTimer 31000 true started1).2.storage.sessions.map
      (fun s => (s.completed, s.plannedDuration, s.actualDuration))) =
      [(false, 60000, 30000)] :=
  ⟨by decide, by decide,
   (handleStopTimer_history 31000 started1 (by decide) (by decide)).1, by decide⟩

/-- C10 (counterexample): a `START_TIMER` whose duration is `undefined` is not
rejected: the default of 25 minutes applies and a timer is started. -/
theorem handleStartTimer_undefined_duration_starts :
    (handleStartTimer 1000 "abc" JSVal.undefined none installedWorld).1.success = true ∧
    (handleStartTimer 1000 "abc" JSVal.undefined none installedWorld).2.timerState.isActive
      = true ∧
    (handleStartTimer 1000 "abc" JSVal.undefined none installedWorld).2.timerState.duration
      = 25 * 60 * 1000 ∧
    ¬ ((handleStartTimer 1000 "abc" JSVal.undefined none installedWorld).1.success = false ∧
       (handleStartTimer 1000 "abc" JSVal.undefined none installedWorld).2.timerState
         = installedWorld.timerState) := by
  decide

/-- C10 (amended): for every duration that is supplied (not `undefined`) and is
not a number greater than 0, `handleStartTimer` returns
`{success: false, error: 'Invalid duration'}` and leaves the whole world (timer
state, storage, alarms) unchanged, so a running or paused session is not
stopped; an `undefined` duration is treated as 25 minutes. -/
theorem handleStartTimer_invalid_duration (now : Int) (rand : String) (mode : Option String)
    (w : World) (v : JSVal) (hdef : v ≠ JSVal.undefined)
    (hbad : ∀ n : Int, v = JSVal.num n → n ≤ 0) :
    handleStartTimer now rand v mode w = (failure "Invalid duration", w) ∧
    handleStartTimer now rand JSVal.undefined mode w =
      handleStartTimer now rand (JSVal.num 25) mode w := by
  refine ⟨?_, rfl⟩
  cases v with
  | undefined => exact absurd rfl hdef
  | null => rfl
  | bool b => rfl
  | str t => rfl
  | num n =>
    have hn : n ≤ 0 := hbad n rfl
    simp [handleStartTimer, hn]

/-- C10 (amended), at concrete inputs: a duration of `0` sent while a timer is
running is rejected and the running timer is untouched. -/
theorem handleStartTimer_invalid_duration_witness :
    JSVal.num 0 ≠ JSVal.undefined ∧
    (∀ n : Int, JSVal.num 0 = JSVal.num n → n ≤ 0) ∧
    handleStartTimer 5000 "xyz" (JSVal.num 0) none started25
      = (failure "Invalid duration", started25) :=
  ⟨by decide, fun n h => by cases h; decide,
   (handleStartTimer_invalid_duration 5000 "xyz" none started25 (JSVal.num 0)
      (by decide) (fun n h => by cases h; decide)).1⟩

/-! ### Starting a timer -/

/-- The timer state installed by `handleStartTimer` for a positive duration. -/
theorem handleStartTimer_timerState (now : Int) (rand : String) (d : Int)
    (mode : Option String) (w : World) (hd : 0 < d) :
    (handleStartTimer now rand (JSVal.num d) mode w).2.timerState =
      { isActive := true, isPaused := false, startTime := some now, pauseTime := none,
        duration := d * 60 * 1000, remainingTime := some (d * 60 * 1000),
        distractions := 0, sessionId := some (generateSessionId now rand),
        mode := mode.getD "focus" } := by
  have hd' : ¬ d ≤ 0 := by omega
  simp [handleStartTimer, hd', saveTimerState, broadcastToTabs]

/-- A positive duration makes `handleStartTimer` answer `success: true`. -/
theorem handleStartTimer_success (now : Int) (rand : String) (d : Int)
    (mode : Option String) (w : World) (hd : 0 < d) :
    (handleStartTimer now rand (JSVal.num d) mode w).1.success = true := by
  have hd' : ¬ d ≤ 0 := by omega
  simp [handleStartTimer, hd', successWith]

/-- With the timer unpaused and started at a non-zero clock reading,
`calculateRemainingTime` is `max 0 (duration - elapsed)`. -/
theorem calculateRemainingTime_running (t : Int) (ts : TimerState) (s : Int)
    (hs : ts.startTime = some s) (hs0 : s ≠ 0) (hp : ts.isPaused = false) :
    calculateRemainingTime t ts = max 0 (ts.duration - (t - s)) := by
  simp [calculateRemainingTime, hs, hp, truthyNum, numOrZero, hs0]

/-- C11: for every duration `d > 0` (minutes) and every mode, whatever the
world was before, `handleStartTimer(d, mode)` at time `now` succeeds and leaves
`duration = remainingTime = d * 60 * 1000` ms, `startTime = now`,
`distractions = 0`, `isActive = true`, `isPaused = false`, the given mode and a
non-null session id; the snapshot taken at once reports the same remaining time. -/
theorem handleStartTimer_sets_state (now : Int) (rand : String) (d : Int) (mode : String)
    (w : World) (hd : 0 < d) :
    (handleStartTimer now rand (JSVal.num d) (some mode) w).1.success = true ∧
    (handleStartTimer now rand (JSVal.num d) (some mode) w).2.timerState.duration
      = d * 60 * 1000 ∧
    (handleStartTimer now rand (JSVal.num d) (some mode) w).2.timerState.remainingTime
      = some (d * 60 * 1000) ∧
    (handleStartTimer now rand (JSVal.num d) (some mode) w).2.timerState.startTime = some now ∧
    (handleStartTimer now rand (JSVal.num d) (some mode) w).2.timerState.distractions = 0 ∧
    (handleStartTimer now rand (JSVal.num d) (some mode) w).2.timerState.isActive = true ∧
    (handleStartTimer now rand (JSVal.num d) (some mode) w).2.timerState.isPaused = false ∧
    (handleStartTimer now rand (JSVal.num d) (some mode) w).2.timerState.mode = mode ∧
    (handleStartTimer now rand (JSVal.num d) (some mode) w).2.timerState.sessionId.isSome
      = true ∧
    (getTimerState now
        (handleStartTimer now rand (JSVal.num d) (some mode) w).2.timerState).state.remainingTime
      = some (d * 60 * 1000) := by
  have hts := handleStartTimer_timerState now rand d (some mode) w hd
  refine ⟨handleStartTimer_success now rand d (some mode) w hd, ?_, ?_, ?_, ?_, ?_, ?_, ?_, ?_, ?_⟩
  all_goals rw [hts]
  all_goals try rfl
  have hpos : 0 ≤ d * 60 * 1000 := by omega
  by_cases h0 : now = 0
  · simp [getTimerState, calculateRemainingTime, truthyNum, h0]
  · simp [getTimerState, calculateRemainingTime, truthyNum, numOrZero, h0, hpos]

/-- C11 at `start(25, 'short-break')` issued while another timer is running. -/
theorem handleStartTimer_sets_state_witness :
    (0 : Int) < 25 ∧
    (handleStartTimer 5000 "xyz" (JSVal.num 25)
        (some "short-break") started1).2.timerState.remainingTime = some (25 * 60 * 1000) ∧
    (handleStartTimer 5000 "xyz" (JSVal.num 25)
        (some "short-break") started1).2.timerState.startTime = some 5000 :=
  ⟨by decide,
   (handleStartTimer_sets_state 5000 "xyz" 25 "short-break" started1 (by decide)).2.2.1,
   (handleStartTimer_sets_state 5000 "xyz" 25 "short-break" started1 (by decide)).2.2.2.1⟩

/-- C13: starting a new timer with a valid duration while a session is running
or paused leaves the stored session list (and the statistics) exactly as they
were: the discarded session gets no history record. -/
theorem handleStartTimer_discards_without_record (now : Int) (rand : String) (d : Int)
    (mode : Option String) (w : World) (hd : 0 < d)
    (hrun : w.timerState.isActive = true ∨ w.timerState.isPaused = true) :
    (handleStartTimer now rand (JSVal.num d) mode w).2.storage.sessions = w.storage.sessions ∧
    (handleStartTimer now rand (JSVal.num d) mode w).2.storage.stats = w.storage.stats ∧
    (handleStartTimer now rand (JSVal.num d) mode w).2.timerState.sessionId
      = some (generateSessionId now rand) := by
  have hd' : ¬ d ≤ 0 := by omega
  have hguard : (w.timerState.isActive || w.timerState.isPaused) = true := by
    rcases hrun with h | h <;> simp [h]
  have hstop : (!w.timerState.isActive && !w.timerState.isPaused) = false := by
    rcases hrun with h | h <;> simp [h]
  refine ⟨?_, ?_, ?_⟩
  · simp [handleStartTimer, hd', hguard, handleStopTimer, hstop, saveTimerState,
      broadcastToTabs]
  · simp [handleStartTimer, hd', hguard, handleStopTimer, hstop, saveTimerState,
      broadcastToTabs]
  · rw [handleStartTimer_timerState now rand d mode w hd]

/-- C13 at a paused 25-minute session replaced by a 5-minute one. -/
theorem handleStartTimer_discards_without_record_witness :
    (0 : Int) < 5 ∧
    (paused25.timerState.isActive = true ∨ paused25.timerState.isPaused = true) ∧
    (handleStartTimer 400000 "xyz" (JSVal.num 5) none paused25).2.storage.sessions
      = paused25.storage.sessions :=
  ⟨by decide, Or.inl rfl,
   (handleStartTimer_discards_without_record 400000 "xyz" 5 none paused25 (by decide)
      (Or.inl rfl)).1⟩

/-! ### Pause, reset and distraction guards -/

/-- C14: `handlePauseTimer` fails exactly when the timer is not running and
unpaused.  With no active timer it answers `success: false` with
'No active timer to pause'; with an active, already paused timer it answers
`success: false` with 'Timer already paused'; in both cases the world is
unchanged.  With an active, unpaused timer it succeeds and pauses it. -/
theorem handlePauseTimer_guards (now : Int) (w : World) :
    (w.timerState.isActive = false →
      handlePauseTimer now w = (failure "No active timer to pause", w)) ∧
    (w.timerState.isActive = true → w.timerState.isPaused = true →
      handlePauseTimer now w = (failure "Timer already paused", w)) ∧
    (w.timerState.isActive = true → w.timerState.isPaused = false →
      (handlePauseTimer now w).1.success = true ∧
      (handlePauseTimer now w).2.timerState.isPaused = true) ∧
    ((handlePauseTimer now w).1.success = false ↔
      ¬ (w.timerState.isActive = true ∧ w.timerState.isPaused = false)) := by
  refine ⟨?_, ?_, ?_, ?_⟩
  · intro ha
    simp [handlePauseTimer, ha]
  · intro ha hp
    simp [handlePauseTimer, ha, hp]
  · intro ha hp
    simp [handlePauseTimer, ha, hp, successWith, saveTimerState, broadcastToTabs]
  · cases ha : w.timerState.isActive <;> cases hp : w.timerState.isPaused <;>
      simp [handlePauseTimer, ha, hp, successWith, failure]

/-- C14 on an idle, a paused and a running engine. -/
theorem handlePauseTimer_guards_witness :
    handlePauseTimer 5000 installedWorld
      = (failure "No active timer to pause", installedWorld) ∧
    handlePauseTimer 5000 paused1 = (failure "Timer already paused", paused1) ∧
    (handlePauseTimer 5000 started1).1.success = true :=
  ⟨(handlePauseTimer_guards 5000 installedWorld).1 rfl,
   (handlePauseTimer_guards 5000 paused1).2.1 rfl rfl,
   ((handlePauseTimer_guards 5000 started1).2.2.1 rfl rfl).1⟩

/-- C16: while a session is running or paused, `handleResetTimer` leaves
exactly the world (timer state, storage, alarms) and the response that
`handleStopTimer(false)` leaves: the timer is back at the idle defaults and the
session list and statistics are untouched. -/
theorem handleResetTimer_eq_stop (now : Int) (w : World)
    (hrun : w.timerState.isActive = true ∨ w.timerState.isPaused = true) :
    (handleResetTimer now w).2 = (handleStopTimer now false w).2 ∧
    (handleResetTimer now w).1 = (handleStopTimer now false w).1 ∧
    (handleResetTimer now w).2.timerState = defaultTimerState ∧
    (handleResetTimer now w).2.storage.sessions = w.storage.sessions ∧
    (handleResetTimer now w).2.storage.stats = w.storage.stats := by
  have hstop : (!w.timerState.isActive && !w.timerState.isPaused) = false := by
    rcases hrun with h | h <;> simp [h]
  refine ⟨rfl, ?_, ?_, ?_, ?_⟩
  · simp [handleResetTimer, handleStopTimer, hstop]
  · simp [handleResetTimer, handleStopTimer, hstop, saveTimerState, broadcastToTabs]
  · simp [handleResetTimer, handleStopTimer, hstop, saveTimerState, broadcastToTabs]
  · simp [handleResetTimer, handleStopTimer, hstop, saveTimerState, broadcastToTabs]

/-- C16 on a paused 25-minute session. -/
theorem handleResetTimer_eq_stop_witness :
    (paused25.timerState.isActive = true ∨ paused25.timerState.isPaused = true) ∧
    (handleResetTimer 400000 paused25).2 = (handleStopTimer 400000 false paused25).2 ∧
    (handleResetTimer 400000 paused25).2.timerState = defaultTimerState :=
  ⟨Or.inl rfl, (handleResetTimer_eq_stop 400000 paused25 (Or.inl rfl)).1,
   (handleResetTimer_eq_stop 400000 paused25 (Or.inl rfl)).2.2.1⟩

/-- C17: `handleDistraction` adds exactly 1 to the distraction count when the
timer is active and unpaused and leaves it alone otherwise; pause, resume and
alarm deliveries never change the count, so it never decreases within a
session; and `start`, `pause`, three distractions, `resume` end with a count
of 0. -/
theorem handleDistraction_count (t1 t2 t3 : Int) (rand : String) (d : Int)
    (mode : Option String) (w : World) (hd : 0 < d) :
    (handleDistraction w).2.timerState.distractions =
      (if w.timerState.isActive && !w.timerState.isPaused then w.timerState.distractions + 1
       else w.timerState.distractions) ∧
    w.timerState.distractions ≤ (handleDistraction w).2.timerState.distractions ∧
    (handlePauseTimer t1 w).2.timerState.distractions = w.timerState.distractions ∧
    (handleResumeTimer t1 w).2.timerState.distractions = w.timerState.distractions ∧
    (handleTimerTick t1 w).timerState.distractions = w.timerState.distractions ∧
    (handleTimerComplete t1 w).timerState.distractions = w.timerState.distractions ∧
    (handleResumeTimer t3
      (handleDistraction (handleDistraction (handleDistraction
        (handlePauseTimer t2
          (handleStartTimer t1 rand (JSVal.num d) mode w).2).2).2).2).2).2.timerState.distractions
      = 0 := by
  have hcomplete : ∀ v : World,
      (handleTimerComplete t1 v).timerState.distractions = v.timerState.distractions := by
    intro v
    unfold handleTimerComplete
    simp only [broadcastToTabs, saveSessionToHistory]
    split <;> rfl
  refine ⟨?_, ?_, ?_, ?_, ?_, hcomplete w, ?_⟩
  · cases ha : w.timerState.isActive <;> cases hp : w.timerState.isPaused <;>
      simp [handleDistraction, ha, hp, broadcastToTabs]
  · cases ha : w.timerState.isActive <;> cases hp : w.timerState.isPaused <;>
      simp [handleDistraction, ha, hp, broadcastToTabs]
  · cases ha : w.timerState.isActive <;> cases hp : w.timerState.isPaused <;>
      simp [handlePauseTimer, ha, hp, saveTimerState, broadcastToTabs]
  · cases ha : w.timerState.isActive <;> cases hp : w.timerState.isPaused <;>
      simp [handleResumeTimer, ha, hp, saveTimerState, broadcastToTabs]
  · unfold handleTimerTick
    split
    · rfl
    · simp only []
      split
      · rw [hcomplete]
      · rfl
  · have hts := handleStartTimer_timerState t1 rand d mode w hd
    generalize (handleStartTimer t1 rand (JSVal.num d) mode w).2 = w1 at hts
    simp [handleResumeTimer, handleDistraction, handlePauseTimer, hts, saveTimerState,
      broadcastToTabs]

/-- C17 on a concrete run: three distractions while running count, three while
paused do not. -/
theorem handleDistraction_count_witness :
    (0 : Int) < 25 ∧
    (handleDistraction started25).2.timerState.distractions = 1 ∧
    (handleResumeTimer 400000
      (handleDistraction (handleDistraction (handleDistraction
        (handlePauseTimer 2000
          (handleStartTimer 1000 "abc" (JSVal.num 25) none
            installedWorld).2).2).2).2).2).2.timerState.distractions = 0 :=
  ⟨by decide, by decide,
   (handleDistraction_count 1000 2000 400000 "abc" 25 none installedWorld (by decide)).2.2.2.2.2.2⟩

/-- C18 (counterexample): a distraction reported to an idle engine is answered
with the failure response `success: false`, error 'No active timer'. -/
theorem handleDistraction_idle_is_failure :
    installedWorld.timerState.isActive = false ∧
    (handleDistraction installedWorld).1.success = false ∧
    (handleDistraction installedWorld).1.error = some "No active timer" ∧
    (handleDistraction paused1).1.success = false ∧
    (handleDistraction paused1).1.error = some "No active timer" := by
  decide

/-- C18 (amended): recording a distraction while the timer is idle or paused
changes nothing (timer state, distraction count, storage, alarms), and the
response is the failure response `success: false` with error 'No active timer'. -/
theorem handleDistraction_ignored (w : World)
    (h : w.timerState.isActive = false ∨ w.timerState.isPaused = true) :
    handleDistraction w = (failure "No active timer", w) ∧
    (handleDistraction w).2.timerState.distractions = w.timerState.distractions ∧
    (handleDistraction w).1.success = false := by
  have hg : (!w.timerState.isActive || w.timerState.isPaused) = true := by
    rcases h with h | h <;> simp [h]
  simp [handleDistraction, hg, failure]

/-- C18 (amended) on a paused timer. -/
theorem handleDistraction_ignored_witness :
    (paused1.timerState.isActive = false ∨ paused1.timerState.isPaused = true) ∧
    handleDistraction paused1 = (failure "No active timer", paused1) :=
  ⟨Or.inr rfl, (handleDistraction_ignored paused1 (Or.inr rfl)).1⟩

/-! ### The engine invariant -/

/-- A fresh installation satisfies the engine invariant. -/
theorem engineInv_installed : EngineInv installedWorld := by
  refine ⟨by decide, ?_, ?_, ?_⟩
  · intro h; exact absurd h (by decide)
  · intro _; rfl
  · intro snap h; simp [installedWorld, freshWorld, installedStorage] at h

/-- Broadcasting touches neither the timer state nor storage. -/
theorem engineInv_broadcast (msg : String) (w : World) (h : EngineInv w) :
    EngineInv (broadcastToTabs msg w) := h

/-- Appending a history record keeps the engine invariant. -/
theorem engineInv_saveSession (now : Int) (sd : TimerState) (c : Bool) (w : World)
    (h : EngineInv w) : EngineInv (saveSessionToHistory now sd c w) := h

/-- Persisting the timer state keeps the engine invariant. -/
theorem engineInv_saveTimerState (now : Int) (w : World) (h : EngineInv w) :
    EngineInv (saveTimerState now w) := by
  obtain ⟨h1, h2, h3, _⟩ := h
  refine ⟨h1, h2, h3, ?_⟩
  intro snap hs
  simp only [saveTimerState, Option.some.injEq] at hs
  subst hs
  exact h1

/-- Completion leaves an inactive timer with nothing remaining. -/
theorem engineInv_complete (now : Int) (w : World) (h1 : 0 < w.timerState.duration)
    (h4 : ∀ snap : TimerSnapshot, w.storage.timerState = some snap → 0 < snap.state.duration) :
    EngineInv (handleTimerComplete now w) := by
  unfold handleTimerComplete
  simp only [broadcastToTabs, saveSessionToHistory]
  split <;> exact ⟨h1, by simp, by simp [numOrZero], h4⟩

/-- Stopping keeps the engine invariant. -/
theorem engineInv_stop (now : Int) (save : Bool) (w : World) (h : EngineInv w) :
    EngineInv (handleStopTimer now save w).2 := by
  unfold handleStopTimer
  split
  · exact h
  · have hbase : EngineInv (saveTimerState now
        { ({ w with timerState := defaultTimerState } : World) with
          focusTimer := none, timerTick := false }) :=
      engineInv_saveTimerState now _
        ⟨by simp [defaultTimerState], by simp [defaultTimerState],
          by simp [defaultTimerState, numOrZero], h.2.2.2⟩
    simp only []
    split
    · exact engineInv_broadcast _ _ (engineInv_saveSession _ _ _ _ hbase)
    · exact engineInv_broadcast _ _ hbase


/-- Starting keeps the engine invariant. -/
theorem engineInv_start (now : Int) (rand : String) (duration : JSVal) (mode : Option String)
    (w : World) (h : EngineInv w) :
    EngineInv (handleStartTimer now rand duration mode w).2 := by
  unfold handleStartTimer
  simp only []
  split
  · rename_i d _
    split
    · exact h
    · rename_i hd
      have hpos : 0 < d * 60 * 1000 := by omega
      have h4 : ∀ snap : TimerSnapshot,
          (if (w.timerState.isActive || w.timerState.isPaused) = true then
            (handleStopTimer now false w).2 else w).storage.timerState = some snap →
          0 < snap.state.duration := by
        split
        · exact (engineInv_stop now false w h).2.2.2
        · exact h.2.2.2
      refine engineInv_broadcast _ _ (engineInv_saveTimerState now _ ⟨hpos, ?_, ?_, h4⟩)
      · intro _; simpa [numOrZero] using hpos
      · intro hc; simp at hc
  · exact h

/-- Pausing keeps the engine invariant: the stored remaining time stays positive. -/
theorem engineInv_pause (now : Int) (w : World) (h : EngineInv w) :
    EngineInv (handlePauseTimer now w).2 := by
  unfold handlePauseTimer
  split
  · exact h
  · split
    · exact h
    · rename_i ha hp
      obtain ⟨h1, h2, _, h4⟩ := h
      have hact : w.timerState.isActive = true := by simpa using ha
      have hrem := h2 hact
      refine engineInv_broadcast _ _ (engineInv_saveTimerState now _ ⟨h1, ?_, ?_, h4⟩)
      · intro _
        cases hr : w.timerState.remainingTime with
        | none => simp [hr, numOrZero] at hrem
        | some r =>
          simp only [hr, numOrZero, Option.getD_some] at hrem
          by_cases hst : truthyNum w.timerState.startTime = true
          · simp [calculateRemainingTime, hst, hr, numOrZero, hrem]
          · simp [calculateRemainingTime, hst, numOrZero, h1]
      · intro hc
        simp [hact] at hc

/-- Resuming keeps the engine invariant. -/
theorem engineInv_resume (now : Int) (w : World) (h : EngineInv w) :
    EngineInv (handleResumeTimer now w).2 := by
  unfold handleResumeTimer
  split
  · exact h
  · obtain ⟨h1, h2, h3, h4⟩ := h
    exact engineInv_broadcast _ _ (engineInv_saveTimerState now _ ⟨h1, h2, h3, h4⟩)

/-- A tick either completes the timer or stores a positive remaining time. -/
theorem engineInv_tick (now : Int) (w : World) (h : EngineInv w) :
    EngineInv (handleTimerTick now w) := by
  unfold handleTimerTick
  split
  · exact h
  · rename_i hg
    obtain ⟨h1, _, _, h4⟩ := h
    have hact : w.timerState.isActive = true := by
      cases ha : w.timerState.isActive <;> simp [ha] at hg ⊢
    simp only []
    split
    · exact engineInv_complete now _ h1 h4
    · rename_i hpos
      refine engineInv_broadcast _ _ ⟨h1, ?_, ?_, h4⟩
      · intro _; exact not_le.mp hpos
      · intro hc; simp [hact] at hc

/-- Recording a distraction keeps the engine invariant. -/
theorem engineInv_distraction (w : World) (h : EngineInv w) :
    EngineInv (handleDistraction w).2 := by
  unfold handleDistraction
  split
  · exact h
  · exact engineInv_broadcast _ _ h

/-- Restoring on startup keeps the engine invariant. -/
theorem engineInv_restoreState (now : Int) (w : World) (h : EngineInv w) :
    EngineInv (restoreState now w) := by
  unfold restoreState
  split
  · exact h
  · rename_i snap hs
    have hdur := h.2.2.2 snap hs
    simp only []
    split
    · split
      · exact engineInv_complete now w h.1 h.2.2.2
      · rename_i hlt
        split
        · refine ⟨hdur, ?_, ?_, h.2.2.2⟩
          · intro _
            have := not_le.mp hlt
            simp only [numOrZero, Option.getD_some] at this ⊢
            omega
          · intro hc
            simp_all
        · exact h
    · exact h

/-- Every delivery keeps the engine invariant. -/
theorem engineInv_deliver (now : Int) (e : Event) (w : World) (h : EngineInv w) :
    EngineInv (deliver now e w) := by
  cases e with
  | start rand duration mode => exact engineInv_start now rand duration mode w h
  | pause => exact engineInv_pause now w h
  | resume => exact engineInv_resume now w h
  | stop save => exact engineInv_stop now save w h
  | reset => exact engineInv_stop now false w h
  | distraction => exact engineInv_distraction w h
  | alarm name =>
    show EngineInv (onAlarm now name w)
    unfold onAlarm
    split
    · exact engineInv_complete now _ h.1 h.2.2.2
    · split
      · exact engineInv_tick now w h
      · exact h
  | restart =>
    exact engineInv_restoreState now _
      ⟨by simp [defaultTimerState], by simp [defaultTimerState],
        by simp [defaultTimerState, numOrZero], h.2.2.2⟩

/-- Every trace keeps the engine invariant. -/
theorem engineInv_run (trace : List (Int × Event)) (w : World) (h : EngineInv w) :
    EngineInv (run w trace) := by
  induction trace generalizing w with
  | nil => exact h
  | cons p rest ih => exact ih _ (engineInv_deliver p.1 p.2 w h)

/-- Every reachable world satisfies the engine invariant. -/
theorem engineInv_of_reachable (w : World) (h : Reachable w) : EngineInv w := by
  obtain ⟨trace, rfl⟩ := h
  exact engineInv_run trace installedWorld engineInv_installed

/-- C15: in every engine state reachable from a fresh installation,
`handleResumeTimer` succeeds if and only if a session exists (`isActive`), it
is paused and its remaining time is greater than 0; equivalently, if and only
if the state is paused with a positive remaining time.  Otherwise it answers
`success: false` with 'No paused timer to resume' and leaves the world
unchanged. -/
theorem handleResumeTimer_succeeds_iff (now : Int) (w : World) (hr : Reachable w) :
    ((handleResumeTimer now w).1.success = true ↔
      (w.timerState.isActive = true ∧ w.timerState.isPaused = true ∧
        0 < numOrZero w.timerState.remainingTime)) ∧
    ((handleResumeTimer now w).1.success = true ↔
      (w.timerState.isPaused = true ∧ 0 < numOrZero w.timerState.remainingTime)) ∧
    (¬ (w.timerState.isActive = true ∧ w.timerState.isPaused = true ∧
        0 < numOrZero w.timerState.remainingTime) →
      handleResumeTimer now w = (failure "No paused timer to resume", w)) := by
  obtain ⟨_, h2, h3, _⟩ := engineInv_of_reachable w hr
  cases ha : w.timerState.isActive <;> cases hp : w.timerState.isPaused <;>
    simp [handleResumeTimer, ha, hp, successWith, failure, h2, h3]

/-- C15 on the paused 25-minute session of `paused25Trace`, and on an idle engine. -/
theorem handleResumeTimer_succeeds_iff_witness :
    Reachable paused25 ∧
    (handleResumeTimer 10300000 paused25).1.success = true ∧
    Reachable installedWorld ∧
    handleResumeTimer 5000 installedWorld
      = (failure "No paused timer to resume", installedWorld) :=
  ⟨⟨paused25Trace, rfl⟩,
   (handleResumeTimer_succeeds_iff 10300000 paused25 ⟨paused25Trace, rfl⟩).1.mpr
     ⟨rfl, rfl, by decide⟩,
   ⟨[], rfl⟩,
   (handleResumeTimer_succeeds_iff 5000 installedWorld ⟨[], rfl⟩).2.2
     (fun h => absurd h.1 (by decide))⟩

/-! ### Reading the clock -/

/-- Completion leaves `startTime`, `duration` and `isPaused` as they were. -/
theorem handleTimerComplete_clock (now : Int) (w : World) :
    (handleTimerComplete now w).timerState.startTime = w.timerState.startTime ∧
    (handleTimerComplete now w).timerState.duration = w.timerState.duration ∧
    (handleTimerComplete now w).timerState.isPaused = w.timerState.isPaused := by
  unfold handleTimerComplete
  simp only [broadcastToTabs, saveSessionToHistory]
  split <;> exact ⟨rfl, rfl, rfl⟩

/-- A tick leaves `startTime`, `duration` and `isPaused` as they were. -/
theorem handleTimerTick_clock (now : Int) (w : World) :
    (handleTimerTick now w).timerState.startTime = w.timerState.startTime ∧
    (handleTimerTick now w).timerState.duration = w.timerState.duration ∧
    (handleTimerTick now w).timerState.isPaused = w.timerState.isPaused := by
  unfold handleTimerTick
  split
  · exact ⟨rfl, rfl, rfl⟩
  · simp only []
    split
    · exact handleTimerComplete_clock now _
    · exact ⟨rfl, rfl, rfl⟩

/-- Any number of ticks leaves `startTime`, `duration` and `isPaused` as they were. -/
theorem tickTrace_clock (ticks : List Int) (w : World) :
    (run w (tickTrace ticks)).timerState.startTime = w.timerState.startTime ∧
    (run w (tickTrace ticks)).timerState.duration = w.timerState.duration ∧
    (run w (tickTrace ticks)).timerState.isPaused = w.timerState.isPaused := by
  induction ticks generalizing w with
  | nil => exact ⟨rfl, rfl, rfl⟩
  | cons t rest ih =>
    have hstep : run w (tickTrace (t :: rest)) = run (handleTimerTick t w) (tickTrace rest) := by
      simp [tickTrace, run, deliver, onAlarm]
    obtain ⟨h1, h2, h3⟩ := ih (handleTimerTick t w)
    obtain ⟨k1, k2, k3⟩ := handleTimerTick_clock t w
    rw [hstep]
    exact ⟨h1.trans k1, h2.trans k2, h3.trans k3⟩

/-- C12: for every `d > 0` and every `x ≤ 60 * d` seconds (so in particular
for `0 ≤ x ≤ 60 * d`), the
remaining time `getTimerState` reports `x` seconds after `start(d)` is exactly
`60 * d - x` seconds (in ms), whether or not tick alarms were delivered in
between.  The clock reading at the start is taken to be non-zero, as a zero
`startTime` is read as unset. -/
theorem getTimerState_after_start (now : Int) (rand : String) (d x : Int)
    (mode : Option String) (w : World) (ticks : List Int)
    (hd : 0 < d) (hnow : now ≠ 0) (hx : x ≤ 60 * d) :
    (getTimerState (now + 1000 * x)
        (handleStartTimer now rand (JSVal.num d) mode w).2.timerState).state.remainingTime
      = some ((60 * d - x) * 1000) ∧
    (getTimerState (now + 1000 * x)
        (run (handleStartTimer now rand (JSVal.num d) mode w).2
          (tickTrace ticks)).timerState).state.remainingTime
      = some ((60 * d - x) * 1000) := by
  have hts := handleStartTimer_timerState now rand d mode w hd
  have key : ∀ ts : TimerState, ts.startTime = some now → ts.duration = d * 60 * 1000 →
      ts.isPaused = false →
      (getTimerState (now + 1000 * x) ts).state.remainingTime = some ((60 * d - x) * 1000) := by
    intro ts h1 h2 h3
    have hcalc := calculateRemainingTime_running (now + 1000 * x) ts now h1 hnow h3
    simp only [getTimerState, hcalc, h2, Option.some.injEq]
    have : d * 60 * 1000 - (now + 1000 * x - now) = (60 * d - x) * 1000 := by ring
    rw [this]
    apply max_eq_right
    nlinarith
  obtain ⟨k1, k2, k3⟩ := tickTrace_clock ticks (handleStartTimer now rand (JSVal.num d) mode w).2
  refine ⟨key _ ?_ ?_ ?_, key _ ?_ ?_ ?_⟩
  · rw [hts]
  · rw [hts]
  · rw [hts]
  · rw [k1, hts]
  · rw [k2, hts]
  · rw [k3, hts]

/-- C12, the spec's example: `start(25)` reports 1500 s at once and 1490 s
ten seconds later. -/
theorem getTimerState_after_start_witness :
    ((0 : Int) < 25 ∧ (1000 : Int) ≠ 0 ∧ (10 : Int) ≤ 60 * 25) ∧
    (getTimerState (1000 + 1000 * 0)
        (handleStartTimer 1000 "abc" (JSVal.num 25) none
          installedWorld).2.timerState).state.remainingTime = some ((60 * 25 - 0) * 1000) ∧
    (getTimerState (1000 + 1000 * 10)
        (run (handleStartTimer 1000 "abc" (JSVal.num 25) none installedWorld).2
          (tickTrace [2000, 3000, 4000])).timerState).state.remainingTime
      = some ((60 * 25 - 10) * 1000) :=
  ⟨by decide,
   (getTimerState_after_start 1000 "abc" 25 0 none installedWorld []
      (by decide) (by decide) (by decide)).1,
   (getTimerState_after_start 1000 "abc" 25 10 none installedWorld [2000, 3000, 4000]
      (by decide) (by decide) (by decide)).2⟩

/-! ### Persistence and statistics -/

/-- The control handlers persist what they leave in memory: after a successful
start, pause, resume or stop the stored `timerState` is the snapshot of the
engine's timer state. -/
theorem control_handlers_persist (now : Int) (rand : String) (d : Int) (mode : Option String)
    (saveSession : Bool) (w : World) :
    (0 < d → (handleStartTimer now rand (JSVal.num d) mode w).2.storage.timerState
      = some (getTimerState now (handleStartTimer now rand (JSVal.num d) mode w).2.timerState)) ∧
    ((handlePauseTimer now w).1.success = true → (handlePauseTimer now w).2.storage.timerState
      = some (getTimerState now (handlePauseTimer now w).2.timerState)) ∧
    ((handleResumeTimer now w).1.success = true → (handleResumeTimer now w).2.storage.timerState
      = some (getTimerState now (handleResumeTimer now w).2.timerState)) ∧
    ((handleStopTimer now saveSession w).1.success = true →
      (handleStopTimer now saveSession w).2.storage.timerState
        = some (getTimerState now (handleStopTimer now saveSession w).2.timerState)) := by
  refine ⟨?_, ?_, ?_, ?_⟩
  · intro hd
    have hd' : ¬ d ≤ 0 := by omega
    simp [handleStartTimer, hd', saveTimerState, broadcastToTabs]
  · cases ha : w.timerState.isActive <;> cases hp : w.timerState.isPaused <;>
      simp [handlePauseTimer, ha, hp, saveTimerState, broadcastToTabs, failure]
  · cases ha : w.timerState.isActive <;> cases hp : w.timerState.isPaused <;>
      simp [handleResumeTimer, ha, hp, saveTimerState, broadcastToTabs, failure]
  · cases ha : w.timerState.isActive <;> cases hp : w.timerState.isPaused <;>
      cases saveSession <;>
      simp [handleStopTimer, ha, hp, saveTimerState, broadcastToTabs, failure,
        saveSessionToHistory] <;>
      split <;> intro _ <;> rfl

/-- C19 (defect): `handleDistraction` and `handleTimerComplete` never call
`saveTimerState`.  After a counted distraction the stored record still says 0
distractions; after completion it still says the timer is active with 60 s
left, so the next cold start completes the same session a second time. -/
theorem distraction_and_completion_not_persisted :
    (handleDistraction started25).1.success = true ∧
    (handleDistraction started25).2.timerState.distractions = 1 ∧
    ((handleDistraction started25).2.storage.timerState.map
      (fun p => p.state.distractions)) = some 0 ∧
    completed1.timerState.isActive = false ∧
    completed1.timerState.remainingTime = some 0 ∧
    (completed1.storage.timerState.map (fun p => p.state.isActive)) = some true ∧
    (completed1.storage.timerState.map (fun p => p.state.remainingTime))
      = some (some 60000) ∧
    completed1.storage.sessions.length = 1 ∧
    (coldStart 200000 completed1.storage).storage.sessions.length = 2 := by
  decide

/-- A completed focus session always adds 1 to `currentStreak`; no date is consulted. -/
theorem updateStats_streak_increments (now : Int) (stats : Stats) (sessionData : TimerState)
    (hm : sessionData.mode = "focus") :
    (updateStats now stats sessionData true).currentStreak
      = some (numOrZero stats.currentStreak + 1) := by
  simp [updateStats, hm]

/-- C20 (defect): two completed one-minute focus sessions started 99 s apart
(hence on the same calendar day) raise `currentStreak` from 1 after the first
to 2 after the second. -/
theorem second_session_same_day_raises_streak :
    (twoFocusSessions.storage.sessions.map (fun s => (s.completed, s.mode, s.date))) =
      [(true, "focus", 1000), (true, "focus", 100000)] ∧
    completed1.storage.stats.currentStreak = some 1 ∧
    twoFocusSessions.storage.stats.currentStreak = some 2 ∧
    twoFocusSessions.storage.stats.longestStreak = some 2 := by
  decide

/-! ### History store -/

/-- A session that is not a completed focus session is stored without the
two streak keys. -/
theorem updateStats_streak_dropped (now : Int) (stats : Stats) (sessionData : TimerState)
    (completed : Bool) (h : (completed && sessionData.mode == "focus") = false) :
    (updateStats now stats sessionData completed).currentStreak = none ∧
    (updateStats now stats sessionData completed).longestStreak = none := by
  simp only [updateStats, h]
  exact ⟨rfl, rfl⟩

/-- C21 (defect): after one completed focus session (`currentStreak = 1`,
`longestStreak = 1`), recording a completed short break, or a focus session
stopped early, stores statistics without `currentStreak` and `longestStreak`:
both read back as absent (0), not as their previous value 1. -/
theorem non_focus_session_erases_streak :
    completed1.storage.stats.currentStreak = some 1 ∧
    completed1.storage.stats.longestStreak = some 1 ∧
    (breakAfterFocus.storage.sessions.map (fun s => (s.completed, s.mode))) =
      [(true, "focus"), (true, "short-break")] ∧
    breakAfterFocus.storage.stats.currentStreak = none ∧
    breakAfterFocus.storage.stats.longestStreak = none ∧
    (stoppedAfterFocus.storage.sessions.map (fun s => (s.completed, s.mode))) =
      [(true, "focus"), (false, "focus")] ∧
    stoppedAfterFocus.storage.stats.currentStreak = none ∧
    stoppedAfterFocus.storage.stats.longestStreak = none := by
  decide

/-- The counters after a sequence of appends, from any stored counters. -/
theorem appendSessions_stats (calls : List (Int × TimerState × Bool)) (w : World)
    (a b c d : Int)
    (ha : w.storage.stats.totalSessions = some a)
    (hb : w.storage.stats.completedSessions = some b)
    (hc : w.storage.stats.totalFocusTime = some c)
    (hd : w.storage.stats.totalDistractions = some d) :
    (appendSessions w calls).storage.stats.totalSessions
      = some (a + (appendedRecords calls).length) ∧
    (appendSessions w calls).storage.stats.completedSessions
      = some (b + ((appendedRecords calls).filter (fun s => s.completed)).length) ∧
    (appendSessions w calls).storage.stats.totalFocusTime
      = some (c + (((appendedRecords calls).filter (fun s => s.mode == "focus")).map
          Session.actualDuration).sum) ∧
    (appendSessions w calls).storage.stats.totalDistractions
      = some (d + ((appendedRecords calls).map Session.distractions).sum) := by
  induction calls generalizing w a b c d with
  | nil => simp [appendSessions, appendedRecords, ha, hb, hc, hd]
  | cons x rest ih =>
    obtain ⟨now, sd, cp⟩ := x
    have step := ih (saveSessionToHistory now sd cp w)
      (a + 1) (b + (if cp then 1 else 0))
      (c + (if sd.mode == "focus" then actualDurationOf now sd else 0))
      (d + sd.distractions)
      (by simp [saveSessionToHistory, updateStats, ha, numOrZero])
      (by simp [saveSessionToHistory, updateStats, hb, numOrZero])
      (by simp [saveSessionToHistory, updateStats, hc, numOrZero])
      (by simp [saveSessionToHistory, updateStats, hd, numOrZero])
    obtain ⟨s1, s2, s3, s4⟩ := step
    simp only [appendSessions]
    refine ⟨?_, ?_, ?_, ?_⟩
    · rw [s1]
      simp [appendedRecords]
      ring
    · rw [s2]
      cases cp <;> simp [appendedRecords, sessionRecord, List.filter_cons]
      ring
    · rw [s3]
      by_cases hm : sd.mode = "focus"
      · simp [appendedRecords, sessionRecord, List.filter_cons, hm]
        ring
      · simp [appendedRecords, sessionRecord, List.filter_cons, hm]
    · rw [s4]
      simp [appendedRecords, sessionRecord]
      ring

/-- C22: starting from cleared data, after any sequence of session appends the
stored statistics hold the number of appended sessions, the number of them
with `completed = true`, the sum of `actualDuration` over those with mode
`'focus'`, and the sum of the distraction counts of all of them. -/
theorem stats_count_appended_sessions (w : World) (calls : List (Int × TimerState × Bool)) :
    (appendSessions (handleClearAllData w).2 calls).storage.stats.totalSessions
      = some ((appendedRecords calls).length : Int) ∧
    (appendSessions (handleClearAllData w).2 calls).storage.stats.completedSessions
      = some (((appendedRecords calls).filter (fun s => s.completed)).length : Int) ∧
    (appendSessions (handleClearAllData w).2 calls).storage.stats.totalFocusTime
      = some ((((appendedRecords calls).filter (fun s => s.mode == "focus")).map
          Session.actualDuration).sum) ∧
    (appendSessions (handleClearAllData w).2 calls).storage.stats.totalDistractions
      = some (((appendedRecords calls).map Session.distractions).sum) := by
  have h := appendSessions_stats calls (handleClearAllData w).2 0 0 0 0 rfl rfl rfl rfl
  simpa using h

/-- C23: for every stored list of length `n ≤ 100` and every new session, the
list stored by `saveSessionToHistory` is the last `min (n + 1) 100` entries of
the old list followed by the new record: it never exceeds 100 entries, it ends
with the new record, and at capacity only the oldest entry is dropped. -/
theorem saveSessionToHistory_caps_fifo (now : Int) (sessionData : TimerState)
    (completed : Bool) (w : World) (hn : w.storage.sessions.length ≤ 100) :
    (saveSessionToHistory now sessionData completed w).storage.sessions =
      (w.storage.sessions ++ [sessionRecord now sessionData completed]).drop
        (w.storage.sessions.length + 1 - min (w.storage.sessions.length + 1) 100) ∧
    (saveSessionToHistory now sessionData completed w).storage.sessions.length
      = min (w.storage.sessions.length + 1) 100 ∧
    (saveSessionToHistory now sessionData completed w).storage.sessions.length ≤ 100 ∧
    (saveSessionToHistory now sessionData completed w).storage.sessions.getLast?
      = some (sessionRecord now sessionData completed) ∧
    (w.storage.sessions.length = 100 →
      (saveSessionToHistory now sessionData completed w).storage.sessions =
        w.storage.sessions.tail ++ [sessionRecord now sessionData completed]) := by
  have hlen : (w.storage.sessions ++ [sessionRecord now sessionData completed]).length
      = w.storage.sessions.length + 1 := by simp
  by_cases hfull : w.storage.sessions.length = 100
  · have hne : w.storage.sessions ≠ [] := by
      intro h; rw [h] at hfull; simp at hfull
    obtain ⟨x, rest, hx⟩ := List.exists_cons_of_ne_nil hne
    have hrest : rest.length = 99 := by
      rw [hx] at hfull; simp at hfull; omega
    simp [saveSessionToHistory, pushCapped, hx, hrest]
  · have hlt : w.storage.sessions.length < 100 := by omega
    have hmin : min (w.storage.sessions.length + 1) 100 = w.storage.sessions.length + 1 := by
      omega
    have hcap : ¬ (w.storage.sessions.length + 1 > 100) := by omega
    simp [saveSessionToHistory, pushCapped, hcap, hmin, hfull]
    omega

/-- C23 on a full history of 100 records: the oldest is evicted. -/
theorem saveSessionToHistory_caps_fifo_witness :
    fullHistory.storage.sessions.length ≤ 100 ∧
    (saveSessionToHistory 5 defaultTimerState true fullHistory).storage.sessions.length
      = min (fullHistory.storage.sessions.length + 1) 100 ∧
    (saveSessionToHistory 5 defaultTimerState true fullHistory).storage.sessions.getLast?
      = some (sessionRecord 5 defaultTimerState true) ∧
    ((saveSessionToHistory 5 defaultTimerState true fullHistory).storage.sessions.head?.map
      Session.date) = some 1 :=
  ⟨by decide,
   (saveSessionToHistory_caps_fifo 5 defaultTimerState true fullHistory (by decide)).2.1,
   (saveSessionToHistory_caps_fifo 5 defaultTimerState true fullHistory (by decide)).2.2.2.1,
   by decide⟩

/-- For a positive limit `handleGetSessions` returns the `limit` most recent
records (all of them when there are fewer), most recent first. -/
theorem handleGetSessions_positive (limit : Int) (w : World) (h : 0 < limit) :
    handleGetSessions limit w = w.storage.sessions.reverse.take limit.toNat ∧
    (handleGetSessions limit w).length ≤ limit.toNat := by
  have h1 : handleGetSessions limit w = w.storage.sessions.reverse.take limit.toNat := by
    simp [handleGetSessions, h, List.take_reverse]
  refine ⟨h1, ?_⟩
  rw [h1]
  simp

/-- C24 (defect): `GET_SESSIONS` with `limit: 0` over a history of two sessions
returns both of them (`slice(-0)` is the whole list), not at most 0; with
`limit: 1` it returns the most recent one. -/
theorem handleGetSessions_zero_returns_all :
    twoFocusSessions.storage.sessions.length = 2 ∧
    (handleGetSessions 0 twoFocusSessions).length = 2 ∧
    ((handleGetSessions 0 twoFocusSessions).map Session.id) =
      [some "session_100000_def", some "session_1000_abc"] ∧
    ((handleGetSessions 1 twoFocusSessions).map Session.id) =
      [some "session_100000_def"] := by
  decide

/-- C25: for every world, `handleClearAllData` answers `success: true` and
leaves an empty session list, every statistics counter at 0 with
`lastSessionDate` null, and the stored settings (and everything else) as they
were. -/
theorem handleClearAllData_keeps_settings (w : World) :
    (handleClearAllData w).1.success = true ∧
    (handleClearAllData w).2.storage.sessions = [] ∧
    (handleClearAllData w).2.storage.stats.totalSessions = some 0 ∧
    (handleClearAllData w).2.storage.stats.completedSessions = some 0 ∧
    (handleClearAllData w).2.storage.stats.totalFocusTime = some 0 ∧
    (handleClearAllData w).2.storage.stats.totalDistractions = some 0 ∧
    (handleClearAllData w).2.storage.stats.currentStreak = some 0 ∧
    (handleClearAllData w).2.storage.stats.longestStreak = some 0 ∧
    (handleClearAllData w).2.storage.stats.lastSessionDate = none ∧
    (handleClearAllData w).2.storage.settings = w.storage.settings ∧
    (handleClearAllData w).2.storage.timerState = w.storage.timerState ∧
    (handleClearAllData w).2.timerState = w.timerState :=
  ⟨rfl, rfl, rfl, rfl, rfl, rfl, rfl, rfl, rfl, rfl, rfl, rfl⟩

/-! ### The clock invariant -/

/-- With a positive duration, a start that is not in the future and a stored
remaining time within bounds, `calculateRemainingTime` lies between 0 and the
duration. -/
theorem calculateRemainingTime_bounds (t : Int) (ts : TimerState)
    (hdur : 0 < ts.duration)
    (hstart : ∀ s : Int, ts.startTime = some s → s ≤ t)
    (hrem : ∀ r : Int, ts.remainingTime = some r → 0 ≤ r ∧ r ≤ ts.duration) :
    0 ≤ calculateRemainingTime t ts ∧ calculateRemainingTime t ts ≤ ts.duration := by
  unfold calculateRemainingTime
  split
  · exact ⟨le_of_lt hdur, le_refl _⟩
  · split
    · rename_i _ hp
      cases hr : ts.remainingTime with
      | none => simp [hr] at hp
      | some r => simpa [numOrZero] using hrem r hr
    · cases hs : ts.startTime with
      | none =>
        rename_i hn _
        simp [hs, truthyNum] at hn
      | some s =>
        have := hstart s hs
        simp only [numOrZero, Option.getD_some]
        constructor
        · exact le_max_left _ _
        · apply max_le (le_of_lt hdur)
          omega

/-- The clock invariant survives the passing of time. -/
theorem clockInv_mono (T T2 : Int) (w : World) (h : ClockInv T w) (hT : T ≤ T2) :
    ClockInv T2 w := by
  obtain ⟨h1, h2, h3, h4⟩ := h
  refine ⟨fun s hs => le_trans (h1 s hs) hT, h2, h3, ?_⟩
  intro snap hsnap
  exact ⟨fun s hs => le_trans ((h4 snap hsnap).1 s hs) hT, (h4 snap hsnap).2⟩

/-- Persisting a timer state that obeys the clock invariant. -/
theorem clockInv_saveTimerState (now : Int) (w : World)
    (h1 : ∀ s : Int, w.timerState.startTime = some s → s ≤ now)
    (h2 : ∀ r : Int, w.timerState.remainingTime = some r → 0 ≤ r ∧ r ≤ w.timerState.duration)
    (h3 : w.timerState.isActive = true → w.timerState.startTime.isSome = true) :
    ClockInv now (saveTimerState now w) := by
  refine ⟨h1, h2, h3, ?_⟩
  intro snap hs
  simp only [saveTimerState, Option.some.injEq] at hs
  subst hs
  exact ⟨h1, h3⟩

/-- Broadcasting keeps the clock invariant. -/
theorem clockInv_broadcast (T : Int) (msg : String) (w : World) (h : ClockInv T w) :
    ClockInv T (broadcastToTabs msg w) := h

/-- Appending a history record keeps the clock invariant. -/
theorem clockInv_saveSession (T now : Int) (sd : TimerState) (c : Bool) (w : World)
    (h : ClockInv T w) : ClockInv T (saveSessionToHistory now sd c w) := h

/-- Completion keeps the clock invariant. -/
theorem clockInv_complete (now : Int) (w : World) (hdur : 0 < w.timerState.duration)
    (h : ClockInv now w) : ClockInv now (handleTimerComplete now w) := by
  obtain ⟨h1, _, _, h4⟩ := h
  unfold handleTimerComplete
  simp only [broadcastToTabs, saveSessionToHistory]
  split <;>
    exact ⟨h1, fun r hr => by simp at hr; subst hr; exact ⟨le_refl _, le_of_lt hdur⟩,
      fun hc => by simp at hc, h4⟩

/-- Stopping keeps the clock invariant. -/
theorem clockInv_stop (now : Int) (save : Bool) (w : World) (h : ClockInv now w) :
    ClockInv now (handleStopTimer now save w).2 := by
  unfold handleStopTimer
  split
  · exact h
  · have hbase : ClockInv now (saveTimerState now
        { ({ w with timerState := defaultTimerState } : World) with
          focusTimer := none, timerTick := false }) :=
      clockInv_saveTimerState now _ (by simp [defaultTimerState]) (by simp [defaultTimerState])
        (by simp [defaultTimerState])
    simp only []
    split
    · exact clockInv_broadcast _ _ _ (clockInv_saveSession _ _ _ _ _ hbase)
    · exact clockInv_broadcast _ _ _ hbase

/-- Starting keeps the clock invariant. -/
theorem clockInv_start (now : Int) (rand : String) (duration : JSVal) (mode : Option String)
    (w : World) (h : ClockInv now w) :
    ClockInv now (handleStartTimer now rand duration mode w).2 := by
  unfold handleStartTimer
  simp only []
  split
  · rename_i d _
    split
    · exact h
    · rename_i hd
      have hpos : 0 ≤ d * 60 * 1000 := by omega
      refine clockInv_broadcast _ _ _ (clockInv_saveTimerState now _ ?_ ?_ ?_)
      · intro s hs
        simp at hs
        omega
      · intro r hr
        simp at hr
        subst hr
        exact ⟨hpos, le_refl _⟩
      · intro _
        rfl
  · exact h

/-- Pausing keeps the clock invariant. -/
theorem clockInv_pause (now : Int) (w : World) (hdur : 0 < w.timerState.duration)
    (h : ClockInv now w) : ClockInv now (handlePauseTimer now w).2 := by
  unfold handlePauseTimer
  split
  · exact h
  · split
    · exact h
    · obtain ⟨h1, h2, h3, _⟩ := h
      refine clockInv_broadcast _ _ _ (clockInv_saveTimerState now _ h1 ?_ h3)
      intro r hr
      simp only [Option.some.injEq] at hr
      subst hr
      exact calculateRemainingTime_bounds now _ hdur h1 h2

/-- Resuming keeps the clock invariant. -/
theorem clockInv_resume (now : Int) (w : World) (h : ClockInv now w) :
    ClockInv now (handleResumeTimer now w).2 := by
  unfold handleResumeTimer
  split
  · exact h
  · obtain ⟨_, h2, _, _⟩ := h
    refine clockInv_broadcast _ _ _ (clockInv_saveTimerState now _ ?_ h2 ?_)
    · intro s hs
      simp at hs
      omega
    · intro _
      rfl

/-- A tick keeps the clock invariant. -/
theorem clockInv_tick (now : Int) (w : World) (hdur : 0 < w.timerState.duration)
    (h : ClockInv now w) : ClockInv now (handleTimerTick now w) := by
  unfold handleTimerTick
  split
  · exact h
  · obtain ⟨h1, h2, h3, h4⟩ := h
    have hb := calculateRemainingTime_bounds now w.timerState hdur h1 h2
    have hw1 : ClockInv now { w with timerState :=
        { w.timerState with
          remainingTime := some (calculateRemainingTime now w.timerState) } } :=
      ⟨h1, fun r hr => by simp only [Option.some.injEq] at hr; subst hr; exact hb, h3, h4⟩
    simp only []
    split
    · exact clockInv_complete now _ hdur hw1
    · exact clockInv_broadcast _ _ _ hw1

/-- Recording a distraction keeps the clock invariant. -/
theorem clockInv_distraction (T : Int) (w : World) (h : ClockInv T w) :
    ClockInv T (handleDistraction w).2 := by
  unfold handleDistraction
  split
  · exact h
  · exact clockInv_broadcast _ _ _ h

/-- Restoring on startup keeps the clock invariant. -/
theorem clockInv_restoreState (now : Int) (w : World) (hdur : 0 < w.timerState.duration)
    (h : ClockInv now w) : ClockInv now (restoreState now w) := by
  unfold restoreState
  split
  · exact h
  · rename_i snap hs
    obtain ⟨k1, k2⟩ := h.2.2.2 snap hs
    simp only []
    split
    · rename_i hact
      split
      · exact clockInv_complete now w hdur h
      · rename_i hlt
        split
        · refine ⟨k1, ?_, k2, h.2.2.2⟩
          intro r hr
          simp only [Option.some.injEq] at hr
          subst hr
          have hsome := k2 hact
          cases hst : snap.state.startTime with
          | none => simp [hst] at hsome
          | some s =>
            have hle := k1 s hst
            have hlt2 := not_le.mp hlt
            simp only [hst, numOrZero, Option.getD_some] at hlt2 ⊢
            constructor <;> omega
        · exact h
    · exact h

/-- Every delivery at a reading the clock has reached keeps both invariants. -/
theorem clockInv_deliver (T now : Int) (e : Event) (w : World) (hT : T ≤ now)
    (he : EngineInv w) (h : ClockInv T w) : ClockInv now (deliver now e w) := by
  have hn := clockInv_mono T now w h hT
  cases e with
  | start rand duration mode => exact clockInv_start now rand duration mode w hn
  | pause => exact clockInv_pause now w he.1 hn
  | resume => exact clockInv_resume now w hn
  | stop save => exact clockInv_stop now save w hn
  | reset => exact clockInv_stop now false w hn
  | distraction => exact clockInv_distraction now w hn
  | alarm name =>
    show ClockInv now (onAlarm now name w)
    unfold onAlarm
    split
    · exact clockInv_complete now _ he.1 hn
    · split
      · exact clockInv_tick now w he.1 hn
      · exact hn
  | restart =>
    exact clockInv_restoreState now _ (by simp [defaultTimerState])
      ⟨by simp [defaultTimerState], by simp [defaultTimerState], by simp [defaultTimerState],
        hn.2.2.2⟩

/-- Every trace on a non-decreasing clock keeps both invariants. -/
theorem clockInv_run (trace : List (Int × Event)) (t0 : Int) (w : World)
    (hmono : nonDecreasing t0 trace = true) (he : EngineInv w) (h : ClockInv t0 w) :
    EngineInv (run w trace) ∧ ClockInv (lastReading t0 trace) (run w trace) := by
  induction trace generalizing t0 w with
  | nil => exact ⟨he, h⟩
  | cons p rest ih =>
    obtain ⟨t, e⟩ := p
    simp only [nonDecreasing, Bool.and_eq_true, decide_eq_true_eq] at hmono
    exact ih t (deliver t e w) hmono.2 (engineInv_deliver t e w he)
      (clockInv_deliver t0 t e w hmono.1 he h)

/-- A fresh installation obeys the clock invariant at any reading. -/
theorem clockInv_installed (t0 : Int) : ClockInv t0 installedWorld := by
  refine ⟨?_, ?_, ?_, ?_⟩
  · intro s hs; simp [installedWorld, freshWorld, defaultTimerState] at hs
  · intro r hr; simp [installedWorld, freshWorld, defaultTimerState] at hr
  · intro hc; simp [installedWorld, freshWorld, defaultTimerState] at hc
  · intro snap hs; simp [installedWorld, freshWorld, installedStorage] at hs

/-- C26: for every state reached from a fresh installation by a trace of
starts, pauses, resumes, stops, resets, ticks, completions, distractions (and
restarts) on a non-decreasing clock, the snapshot `getTimerState` takes at any
later reading reports a remaining time between 0 and the duration, and a
progress between 0 and 100. -/
theorem reported_remaining_within_duration (t0 : Int) (trace : List (Int × Event)) (t : Int)
    (hmono : nonDecreasing t0 trace = true) (ht : lastReading t0 trace ≤ t) :
    ∃ r : Int,
      (getTimerState t (run installedWorld trace).timerState).state.remainingTime = some r ∧
      0 ≤ r ∧
      r ≤ (getTimerState t (run installedWorld trace).timerState).state.duration ∧
      0 ≤ (getTimerState t (run installedWorld trace).timerState).progress ∧
      (getTimerState t (run installedWorld trace).timerState).progress ≤ 100 := by
  obtain ⟨he, hc⟩ := clockInv_run trace t0 installedWorld hmono engineInv_installed
    (clockInv_installed t0)
  obtain ⟨h1, h2, _, _⟩ := clockInv_mono _ t _ hc ht
  have hdur := he.1
  obtain ⟨hb0, hb1⟩ := calculateRemainingTime_bounds t _ hdur h1 h2
  refine ⟨calculateRemainingTime t (run installedWorld trace).timerState, rfl, hb0, hb1, ?_, ?_⟩
  · simp only [getTimerState, hdur, if_true]
    have hq : (0 : ℚ) < ((run installedWorld trace).timerState.duration : ℚ) := by
      exact_mod_cast hdur
    have hn : (0 : ℚ) ≤ (((run installedWorld trace).timerState.duration
        - calculateRemainingTime t (run installedWorld trace).timerState : Int) : ℚ) := by
      exact_mod_cast sub_nonneg.mpr hb1
    positivity
  · simp only [getTimerState, hdur, if_true]
    have hq : (0 : ℚ) < ((run installedWorld trace).timerState.duration : ℚ) := by
      exact_mod_cast hdur
    have hn : (((run installedWorld trace).timerState.duration
        - calculateRemainingTime t (run installedWorld trace).timerState : Int) : ℚ)
        ≤ ((run installedWorld trace).timerState.duration : ℚ) := by
      exact_mod_cast sub_le_self _ hb0
    have hdiv := (div_le_one hq).mpr hn
    linarith

/-- C26 on `mixedTrace`, read 10 s after its last event: 1440 s of 1500 s remain. -/
theorem reported_remaining_within_duration_witness :
    nonDecreasing 0 mixedTrace = true ∧ lastReading 0 mixedTrace ≤ 960000 ∧
    (getTimerState 960000 (run installedWorld mixedTrace).timerState).state.remainingTime
      = some 1440000 ∧
    ∃ r : Int,
      (getTimerState 960000 (run installedWorld mixedTrace).timerState).state.remainingTime
        = some r ∧
      0 ≤ r ∧
      r ≤ (getTimerState 960000 (run installedWorld mixedTrace).timerState).state.duration ∧
      0 ≤ (getTimerState 960000 (run installedWorld mixedTrace).timerState).progress ∧
      (getTimerState 960000 (run installedWorld mixedTrace).timerState).progress ≤ 100 :=
  ⟨by decide, by decide, by decide,
   reported_remaining_within_duration 0 mixedTrace 960000 (by decide) (by decide)⟩

/-! ### The service-worker engine -/

/-- Every operation of the service-worker engine leaves a running timer with a
recorded start. -/
theorem serviceWorker_deliver_running (now : Int) (e : ServiceWorker.Event)
    (w : ServiceWorker.World)
    (h : w.timerState.isRunning = true → w.timerState.startTime.isSome = true) :
    (ServiceWorker.deliver now e w).timerState.isRunning = true →
      (ServiceWorker.deliver now e w).timerState.startTime.isSome = true := by
  cases e with
  | start rand duration => intro _; rfl
  | pause =>
    show (ServiceWorker.pauseTimer now w).timerState.isRunning = true →
      (ServiceWorker.pauseTimer now w).timerState.startTime.isSome = true
    unfold ServiceWorker.pauseTimer
    split
    · exact h
    · intro hc
      simp [ServiceWorker.broadcastState, ServiceWorker.saveState,
        ServiceWorker.stopTimerUpdates] at hc
  | resume =>
    show (ServiceWorker.resumeTimer now w).timerState.isRunning = true →
      (ServiceWorker.resumeTimer now w).timerState.startTime.isSome = true
    unfold ServiceWorker.resumeTimer
    split
    · exact h
    · intro _; rfl
  | reset =>
    intro hc
    simp [ServiceWorker.deliver, ServiceWorker.resetTimer, ServiceWorker.broadcastState,
      ServiceWorker.saveState] at hc
  | distraction =>
    show (ServiceWorker.recordDistraction w).timerState.isRunning = true →
      (ServiceWorker.recordDistraction w).timerState.startTime.isSome = true
    unfold ServiceWorker.recordDistraction
    split
    · exact h
    · exact h
  | complete rand =>
    intro hc
    exfalso
    revert hc
    show ¬ (ServiceWorker.handleTimerComplete now rand w).timerState.isRunning = true
    unfold ServiceWorker.handleTimerComplete
    simp only [ServiceWorker.broadcastState, ServiceWorker.saveState, ServiceWorker.saveSession]
    split <;> simp

/-- In every state the service-worker engine reaches from its initial state,
a running timer has a non-null `startTime`. -/
theorem serviceWorker_running_has_startTime (trace : List (Int × ServiceWorker.Event)) :
    (ServiceWorker.run ServiceWorker.initialWorld trace).timerState.isRunning = true →
    (ServiceWorker.run ServiceWorker.initialWorld trace).timerState.startTime.isSome = true := by
  have key : ∀ (tr : List (Int × ServiceWorker.Event)) (w : ServiceWorker.World),
      (w.timerState.isRunning = true → w.timerState.startTime.isSome = true) →
      (ServiceWorker.run w tr).timerState.isRunning = true →
      (ServiceWorker.run w tr).timerState.startTime.isSome = true := by
    intro tr
    induction tr with
    | nil => intro w h; exact h
    | cons p rest ih =>
      intro w h
      exact ih _ (serviceWorker_deliver_running p.1 p.2 w h)
  exact key trace _ (fun hc => absurd hc (by decide))

/-- C27 (defect): `startTimer(25)` followed by `handleTimerComplete()` leaves
`isRunning = false` with `startTime` still set to the start reading:
`handleTimerComplete` does not clear `startTime`, unlike `pauseTimer` and
`resetTimer`. -/
theorem serviceWorker_complete_keeps_startTime :
    ServiceWorker.run ServiceWorker.initialWorld
      [(1000, ServiceWorker.Event.start "abc" 25),
       (1501000, ServiceWorker.Event.complete "xyz")] = ServiceWorker.swCompleted25 ∧
    ServiceWorker.swCompleted25.timerState.isRunning = false ∧
    ServiceWorker.swCompleted25.timerState.startTime = some 1000 ∧
    (ServiceWorker.pauseTimer 5000 ServiceWorker.swStarted25).timerState.startTime = none ∧
    (ServiceWorker.resetTimer ServiceWorker.swStarted25).timerState.startTime = none := by
  exact ⟨rfl, rfl, rfl, rfl, rfl⟩

/-- C28 (counterexample): ten seconds into a 25-minute run, `GET_STATE` answers
with `timeRemaining = 1500`, the value stored at the start of the run, not
`max(0, 1500 - 10) = 1490`. -/
theorem serviceWorker_getState_is_raw :
    ServiceWorker.swStarted25.timerState.isRunning = true ∧
    ServiceWorker.swStarted25.timerState.startTime = some 1000 ∧
    (ServiceWorker.getState ServiceWorker.swStarted25).state.timeRemaining = 1500 ∧
    (ServiceWorker.getState ServiceWorker.swStarted25).state.timeRemaining
      ≠ max 0 (1500 - 10) := by
  decide

/-- While the timer runs, a distraction or a `resumeTimer` call leaves
`isRunning`, `timeRemaining` and `startTime` as they were. -/
theorem serviceWorker_keepsRun_deliver (now : Int) (e : ServiceWorker.Event)
    (w : ServiceWorker.World) (hk : ServiceWorker.keepsRun e = true)
    (hrun : w.timerState.isRunning = true) :
    (ServiceWorker.deliver now e w).timerState.isRunning = true ∧
    (ServiceWorker.deliver now e w).timerState.timeRemaining = w.timerState.timeRemaining ∧
    (ServiceWorker.deliver now e w).timerState.startTime = w.timerState.startTime := by
  cases e with
  | distraction =>
    simp [ServiceWorker.deliver, ServiceWorker.recordDistraction, hrun,
      ServiceWorker.broadcastState, ServiceWorker.saveState]
  | resume =>
    simp [ServiceWorker.deliver, ServiceWorker.resumeTimer, hrun]
  | start rand duration => simp [ServiceWorker.keepsRun] at hk
  | pause => simp [ServiceWorker.keepsRun] at hk
  | reset => simp [ServiceWorker.keepsRun] at hk
  | complete rand => simp [ServiceWorker.keepsRun] at hk

/-- A run in progress keeps `isRunning`, `timeRemaining` and `startTime` through
any trace of distractions and `resumeTimer` calls. -/
theorem serviceWorker_keepsRun_run (trace : List (Int × ServiceWorker.Event))
    (w : ServiceWorker.World) (hk : ∀ p ∈ trace, ServiceWorker.keepsRun p.2 = true)
    (hrun : w.timerState.isRunning = true) :
    (ServiceWorker.run w trace).timerState.isRunning = true ∧
    (ServiceWorker.run w trace).timerState.timeRemaining = w.timerState.timeRemaining ∧
    (ServiceWorker.run w trace).timerState.startTime = w.timerState.startTime := by
  induction trace generalizing w with
  | nil => exact ⟨hrun, rfl, rfl⟩
  | cons p rest ih =>
    obtain ⟨h1, h2, h3⟩ := serviceWorker_keepsRun_deliver p.1 p.2 w
      (hk p (List.mem_cons_self _ _)) hrun
    obtain ⟨k1, k2, k3⟩ := ih (ServiceWorker.deliver p.1 p.2 w)
      (fun q hq => hk q (List.mem_cons_of_mem _ hq)) h1
    exact ⟨k1, k2.trans h2, k3.trans h3⟩

/-- What the popup shows `x` seconds into a run that started at `t0 ≠ 0`. -/
theorem serviceWorker_popupSeconds_running (state : ServiceWorker.TimerState) (t0 x : Int)
    (hrun : state.isRunning = true) (hs : state.startTime = some t0) (h0 : t0 ≠ 0) :
    ServiceWorker.popupSeconds (t0 + 1000 * x) state = max 0 (state.timeRemaining - x) := by
  have hdiv : (t0 + 1000 * x - t0) / 1000 = x := by
    have : t0 + 1000 * x - t0 = 1000 * x := by ring
    rw [this]
    exact Int.mul_ediv_cancel_left x (by decide)
  simp [ServiceWorker.popupSeconds, hrun, hs, truthyNum, h0, numOrZero, hdiv]

/-- C28 (amended): `GET_STATE` returns the stored state as it is, never a
recomputed one.  While a run begun at `t0` by `startTimer(d)` (with
`r = 60 * d` seconds) or by a successful `resumeTimer` (with `r` the paused
`timeRemaining`) is in progress, through any distractions and stray
`resumeTimer` calls, the response carries `timeRemaining = r` and
`startTime = t0` whatever the time of the request, and the popup derives
`max(0, r - x)` from these two fields at `t0 + x` seconds. -/
theorem serviceWorker_getState_snapshot (w : ServiceWorker.World) (t0 x : Int)
    (rand : String) (d : Int) (trace : List (Int × ServiceWorker.Event)) (h0 : t0 ≠ 0)
    (hk : ∀ p ∈ trace, ServiceWorker.keepsRun p.2 = true) :
    (∀ v : ServiceWorker.World, (ServiceWorker.getState v).state = v.timerState) ∧
    ((ServiceWorker.getState
        (ServiceWorker.run (ServiceWorker.startTimer t0 rand d w) trace)).state.isRunning
        = true ∧
      (ServiceWorker.getState
        (ServiceWorker.run (ServiceWorker.startTimer t0 rand d w) trace)).state.timeRemaining
        = d * 60 ∧
      (ServiceWorker.getState
        (ServiceWorker.run (ServiceWorker.startTimer t0 rand d w) trace)).state.startTime
        = some t0 ∧
      ServiceWorker.popupSeconds (t0 + 1000 * x)
        (ServiceWorker.getState
          (ServiceWorker.run (ServiceWorker.startTimer t0 rand d w) trace)).state
        = max 0 (d * 60 - x)) ∧
    (w.timerState.isRunning = false → 0 < w.timerState.timeRemaining →
      (ServiceWorker.getState
        (ServiceWorker.run (ServiceWorker.resumeTimer t0 w) trace)).state.isRunning = true ∧
      (ServiceWorker.getState
        (ServiceWorker.run (ServiceWorker.resumeTimer t0 w) trace)).state.timeRemaining
        = w.timerState.timeRemaining ∧
      (ServiceWorker.getState
        (ServiceWorker.run (ServiceWorker.resumeTimer t0 w) trace)).state.startTime
        = some t0 ∧
      ServiceWorker.popupSeconds (t0 + 1000 * x)
        (ServiceWorker.getState
          (ServiceWorker.run (ServiceWorker.resumeTimer t0 w) trace)).state
        = max 0 (w.timerState.timeRemaining - x)) := by
  refine ⟨fun _ => rfl, ?_, ?_⟩
  · obtain ⟨k1, k2, k3⟩ := serviceWorker_keepsRun_run trace
      (ServiceWorker.startTimer t0 rand d w) hk rfl
    have hr : _ = d * 60 := k2
    have hs : _ = some t0 := k3
    refine ⟨k1, hr, hs, ?_⟩
    have hp := serviceWorker_popupSeconds_running
      (ServiceWorker.run (ServiceWorker.startTimer t0 rand d w) trace).timerState t0 x k1 hs h0
    rw [hr] at hp
    exact hp
  · intro hstop hpos
    have hguard : (w.timerState.isRunning || decide (w.timerState.timeRemaining ≤ 0)) = false := by
      simp [hstop, hpos]
    have hres : (ServiceWorker.resumeTimer t0 w).timerState =
        { w.timerState with isRunning := true, startTime := some t0, pausedAt := none } := by
      simp [ServiceWorker.resumeTimer, hguard, ServiceWorker.broadcastState,
        ServiceWorker.startTimerUpdates, ServiceWorker.startTimerAlarm, ServiceWorker.saveState]
    have hres1 : (ServiceWorker.resumeTimer t0 w).timerState.timeRemaining
        = w.timerState.timeRemaining := by rw [hres]
    have hres2 : (ServiceWorker.resumeTimer t0 w).timerState.startTime = some t0 := by
      rw [hres]
    obtain ⟨k1, k2, k3⟩ := serviceWorker_keepsRun_run trace
      (ServiceWorker.resumeTimer t0 w) hk (by rw [hres])
    have hr := k2.trans hres1
    have hs := k3.trans hres2
    refine ⟨k1, hr, hs, ?_⟩
    have hp := serviceWorker_popupSeconds_running
      (ServiceWorker.run (ServiceWorker.resumeTimer t0 w) trace).timerState t0 x k1 hs h0
    rw [hr] at hp
    exact hp

/-- C28 (amended) on two runs: ten seconds into a 25-minute run with two
distractions recorded, and ten seconds after resuming the timer paused with
1200 s left. -/
theorem serviceWorker_getState_snapshot_witness :
    ((1000 : Int) ≠ 0 ∧
      ∀ p ∈ ServiceWorker.distractedTrace, ServiceWorker.keepsRun p.2 = true) ∧
    (ServiceWorker.getState
      (ServiceWorker.run (ServiceWorker.startTimer 1000 "abc" 25 ServiceWorker.initialWorld)
        ServiceWorker.distractedTrace)).state.timeRemaining = 25 * 60 ∧
    ServiceWorker.popupSeconds (1000 + 1000 * 10)
      (ServiceWorker.getState
        (ServiceWorker.run (ServiceWorker.startTimer 1000 "abc" 25 ServiceWorker.initialWorld)
          ServiceWorker.distractedTrace)).state = max 0 (25 * 60 - 10) ∧
    ServiceWorker.swPaused25.timerState.timeRemaining = 1200 ∧
    (ServiceWorker.getState
      (ServiceWorker.run (ServiceWorker.resumeTimer 900000 ServiceWorker.swPaused25)
        [])).state.timeRemaining = ServiceWorker.swPaused25.timerState.timeRemaining ∧
    ServiceWorker.popupSeconds (900000 + 1000 * 10)
      (ServiceWorker.getState
        (ServiceWorker.run (ServiceWorker.resumeTimer 900000 ServiceWorker.swPaused25)
          [])).state = max 0 (ServiceWorker.swPaused25.timerState.timeRemaining - 10) :=
  ⟨⟨by decide, by decide⟩,
   (serviceWorker_getState_snapshot ServiceWorker.initialWorld 1000 10 "abc" 25
      ServiceWorker.distractedTrace (by decide) (by decide)).2.1.2.1,
   (serviceWorker_getState_snapshot ServiceWorker.initialWorld 1000 10 "abc" 25
      ServiceWorker.distractedTrace (by decide) (by decide)).2.1.2.2.2,
   rfl,
   ((serviceWorker_getState_snapshot ServiceWorker.swPaused25 900000 10 "abc" 25
      [] (by decide) (by decide)).2.2 rfl (by decide)).2.1,
   ((serviceWorker_getState_snapshot ServiceWorker.swPaused25 900000 10 "abc" 25
      [] (by decide) (by decide)).2.2 rfl (by decide)).2.2.2⟩

/-- C30 (defect): a 25-minute timer persisted as running (`timeRemaining = 1500`,
`startTime = 1000`) and reloaded 300 s later has 1200 s remaining after
`resumeTimerAfterRestart`, but `pauseTimer` at the same instant subtracts the
same 300 s again and leaves 900 s; a second restart at that instant computes
1200 s again. -/
theorem serviceWorker_restart_then_pause_subtracts_twice :
    (ServiceWorker.swStarted25.storage.timerState.map
      (fun t => (t.isRunning, t.timeRemaining, t.startTime))) = some (true, 1500, some 1000) ∧
    ServiceWorker.swReloaded25.timerState.timeRemaining = 1200 ∧
    ServiceWorker.swReloaded25.timerState.startTime = some 1000 ∧
    (ServiceWorker.pauseTimer 301000 ServiceWorker.swReloaded25).timerState.timeRemaining
      = 900 ∧
    (ServiceWorker.coldStart 301000 "xyz"
      ServiceWorker.swReloaded25).timerState.timeRemaining = 1200 := by
  exact ⟨rfl, rfl, rfl, rfl, rfl⟩

/-! ### The streak loop -/

/-- From a day whose run of session days has length `k`, the loop returns
`streak + k` within `k + 1` iterations, unless both are 0. -/
theorem streakLoop_run (sessionDates : List Int) (k : Nat) :
    ∀ (fuel : Nat) (currentDate : Int) (streak : Nat),
      Timer.IsRunLength sessionDates currentDate k → (0 < streak ∨ 0 < k) → k + 1 ≤ fuel →
      Timer.streakLoop sessionDates fuel currentDate streak = some (streak + k) := by
  induction k with
  | zero =>
    intro fuel currentDate streak hrun hpos hfuel
    obtain ⟨f, rfl⟩ : ∃ f, fuel = f + 1 := ⟨fuel - 1, by omega⟩
    have hnot : ¬ (currentDate ∈ sessionDates) := by simpa using hrun.2
    have hs : 0 < streak := by omega
    simp [Timer.streakLoop, hnot, hs]
  | succ k ih =>
    intro fuel currentDate streak hrun _ hfuel
    obtain ⟨f, rfl⟩ : ∃ f, fuel = f + 1 := ⟨fuel - 1, by omega⟩
    have hmem : currentDate ∈ sessionDates := by simpa using hrun.1 0 (by omega)
    have hnext : Timer.IsRunLength sessionDates (currentDate - 1) k := by
      constructor
      · intro i hi
        have := hrun.1 (i + 1) (by omega)
        have he : currentDate - 1 - (i : Int) = currentDate - ((i + 1 : Nat) : Int) := by
          push_cast; ring
        rw [he]; exact this
      · have := hrun.2
        have he : currentDate - 1 - (k : Int) = currentDate - ((k + 1 : Nat) : Int) := by
          push_cast; ring
        rw [he]; exact this
    have := ih f (currentDate - 1) (streak + 1) hnext (Or.inl (by omega)) (by omega)
    simp only [Timer.streakLoop, hmem, if_true]
    rw [this]
    congr 1
    omega

/-- Every day has a run length, and it is at most the number of dates. -/
theorem exists_runLength (n : Nat) :
    ∀ (days : List Int) (anchor : Int), days.length ≤ n →
      ∃ k : Nat, k ≤ days.length ∧ Timer.IsRunLength days anchor k := by
  induction n with
  | zero =>
    intro days anchor hlen
    have : days = [] := List.length_eq_zero.mp (by omega)
    subst this
    exact ⟨0, le_refl _, by intro i hi; omega, by simp⟩
  | succ n ih =>
    intro days anchor hlen
    by_cases hmem : anchor ∈ days
    · have hlt : (days.filter (fun d => decide (d ≠ anchor))).length < days.length := by
        apply List.length_filter_lt_length_iff_exists.mpr
        exact ⟨anchor, hmem, by simp⟩
      obtain ⟨k, hk, hrun⟩ := ih (days.filter (fun d => decide (d ≠ anchor))) (anchor - 1)
        (by omega)
      refine ⟨k + 1, by omega, ?_, ?_⟩
      · intro i hi
        cases i with
        | zero => simpa using hmem
        | succ j =>
          have := hrun.1 j (by omega)
          have he : anchor - ((j + 1 : Nat) : Int) = anchor - 1 - (j : Int) := by
            push_cast; ring
          rw [he]
          exact (List.mem_filter.mp this).1
      · intro hc
        have he : anchor - ((k + 1 : Nat) : Int) = anchor - 1 - (k : Int) := by
          push_cast; ring
        rw [he] at hc
        apply hrun.2
        apply List.mem_filter.mpr
        refine ⟨hc, ?_⟩
        simp only [ne_eq, decide_not, Bool.not_eq_true', decide_eq_false_iff_not]
        omega
    · exact ⟨0, Nat.zero_le _, by intro i hi; omega, by simpa using hmem⟩

/-- Sorting does not change which days have a session. -/
theorem mem_sessionDates (dayOf : Int → Int) (sessions : List Timer.StreakSession) (d : Int) :
    d ∈ Timer.sessionDates dayOf sessions ↔ d ∈ sessions.map (fun s => dayOf s.timestamp) := by
  simp [Timer.sessionDates, List.mem_insertionSort]

/-- The run length depends only on which days have a session. -/
theorem isRunLength_congr (days1 days2 : List Int) (anchor : Int) (n : Nat)
    (h : ∀ d : Int, d ∈ days1 ↔ d ∈ days2) (hrun : Timer.IsRunLength days1 anchor n) :
    Timer.IsRunLength days2 anchor n :=
  ⟨fun i hi => (h _).mp (hrun.1 i hi), fun hc => hrun.2 ((h _).mpr hc)⟩

/-- C29: `Timer.calculateStreak` returns on every finite session list (any
fuel of at least `sessions.length + 2` loop iterations gives the same
result), and the result is 0 for an empty list and when neither today nor
yesterday has a session, and otherwise the length of the maximal run of
consecutive session days ending today, or ending yesterday when today has no
session. -/
theorem calculateStreak_counts_run (dayOf : Int → Int) (now : Int)
    (sessions : List Timer.StreakSession) :
    ∃ n : Nat,
      (∀ fuel : Nat, sessions.length + 2 ≤ fuel →
        Timer.calculateStreak dayOf now fuel sessions = some n) ∧
      (sessions = [] → n = 0) ∧
      (¬ (dayOf now ∈ sessions.map (fun s => dayOf s.timestamp)) →
        ¬ (dayOf now - 1 ∈ sessions.map (fun s => dayOf s.timestamp)) → n = 0) ∧
      (dayOf now ∈ sessions.map (fun s => dayOf s.timestamp) →
        Timer.IsRunLength (sessions.map (fun s => dayOf s.timestamp)) (dayOf now) n) ∧
      (¬ (dayOf now ∈ sessions.map (fun s => dayOf s.timestamp)) →
        dayOf now - 1 ∈ sessions.map (fun s => dayOf s.timestamp) →
        Timer.IsRunLength (sessions.map (fun s => dayOf s.timestamp)) (dayOf now - 1) n) := by
  have hmem := mem_sessionDates dayOf sessions
  have hlenD : (Timer.sessionDates dayOf sessions).length = sessions.length := by
    simp [Timer.sessionDates, List.length_insertionSort]
  by_cases hnil : sessions = []
  · subst hnil
    refine ⟨0, ?_, fun _ => rfl, fun _ _ => rfl, ?_, ?_⟩
    · intro fuel _; rfl
    · intro h; simp at h
    · intro _ h; simp at h
  · have hlen0 : ¬ (sessions.length = 0) := fun h => hnil (List.length_eq_zero.mp h)
    by_cases htoday : dayOf now ∈ Timer.sessionDates dayOf sessions
    · obtain ⟨k, hk, hrun⟩ := exists_runLength _ (Timer.sessionDates dayOf sessions) (dayOf now)
        (le_refl _)
      have hkpos : 0 < k := by
        rcases Nat.eq_zero_or_pos k with h0 | h0
        · subst h0; exact absurd (by simpa using htoday) hrun.2
        · exact h0
      refine ⟨k, ?_, fun h => absurd h hnil, ?_, ?_, ?_⟩
      · intro fuel hfuel
        have := streakLoop_run _ k fuel (dayOf now) 0 hrun (Or.inr hkpos) (by omega)
        simp [Timer.calculateStreak, hlen0, this]
      · intro h; exact absurd ((hmem _).mp htoday) h
      · intro _; exact isRunLength_congr _ _ _ _ hmem hrun
      · intro h; exact absurd ((hmem _).mp htoday) h
    · by_cases hyest : dayOf now - 1 ∈ Timer.sessionDates dayOf sessions
      · obtain ⟨k, hk, hrun⟩ := exists_runLength _ (Timer.sessionDates dayOf sessions)
          (dayOf now - 1) (le_refl _)
        have hkpos : 0 < k := by
          rcases Nat.eq_zero_or_pos k with h0 | h0
          · subst h0; exact absurd (by simpa using hyest) hrun.2
          · exact h0
        refine ⟨k, ?_, fun h => absurd h hnil, ?_, ?_, ?_⟩
        · intro fuel hfuel
          obtain ⟨f, rfl⟩ : ∃ f, fuel = f + 1 := ⟨fuel - 1, by omega⟩
          have := streakLoop_run _ k f (dayOf now - 1) 0 hrun (Or.inr hkpos) (by omega)
          simp [Timer.calculateStreak, hlen0, Timer.streakLoop, htoday, hyest, this]
        · intro _ h; exact absurd ((hmem _).mp hyest) h
        · intro h; exact absurd ((hmem _).mpr h) htoday
        · intro _ _; exact isRunLength_congr _ _ _ _ hmem hrun
      · refine ⟨0, ?_, fun _ => rfl, fun _ _ => rfl, ?_, ?_⟩
        · intro fuel hfuel
          obtain ⟨f, rfl⟩ : ∃ f, fuel = f + 1 := ⟨fuel - 1, by omega⟩
          simp [Timer.calculateStreak, hlen0, Timer.streakLoop, htoday, hyest]
        · intro h; exact absurd ((hmem _).mpr h) htoday
        · intro _ h; exact absurd ((hmem _).mpr h) hyest

/-- C29 on five sessions over UTC days 10, 9, 9, 8 and 5: read on day 11 the
streak is the three days 10, 9, 8; read on day 12 it is 0. -/
theorem calculateStreak_counts_run_witness :
    Timer.calculateStreak Timer.utcDay (11 * 86400000 + 500) 7 Timer.sampleSessions = some 3 ∧
    Timer.calculateStreak Timer.utcDay (12 * 86400000 + 500) 7 Timer.sampleSessions = some 0 ∧
    ∃ n : Nat, ∀ fuel : Nat, Timer.sampleSessions.length + 2 ≤ fuel →
      Timer.calculateStreak Timer.utcDay (11 * 86400000 + 500) fuel Timer.sampleSessions
        = some n :=
  ⟨by decide, by decide,
   (calculateStreak_counts_run Timer.utcDay (11 * 86400000 + 500) Timer.sampleSessions).imp
     (fun _ h => h.1)⟩

end FocusBubble
